import Mathlib

/-
Verification development for the librbd client-side control plane
(src/src/librbd/internal.cc): exclusive-lock coordinator, metadata
refresh engine, parent resolver and snapshot lifecycle manager.

Each C++ function under scrutiny is shallowly embedded as an executable
Lean function over an explicit environment describing the results of the
external collaborator calls (object store, cls backend, peer channel).
Machine error codes are Int errno values returned negated, as in the
source.
-/

/-- errno constant (Linux values, as used by the source's -Exxx returns). -/
def enoent : Int := 2

/-- errno constant. -/
def eio : Int := 5

/-- errno constant. -/
def ebusy : Int := 16

/-- errno constant. -/
def eexist : Int := 17

/-- errno constant. -/
def einval : Int := 22

/-- errno constant. -/
def erofs : Int := 30

/-- errno constant. -/
def enosys : Int := 38

/-- errno constant. -/
def erestart : Int := 85

/-- errno constant. -/
def eopnotsupp : Int := 95

/-- errno constant. -/
def etimedout : Int := 110

/-- errno constant. -/
def estale : Int := 116

/-- CEPH_NOSNAP sentinel: snapid_t is uint64, the sentinel is its maximum. -/
def CEPH_NOSNAP : Nat := 2 ^ 64 - 1

/-- Decidable equality for Except values, so witnesses can be checked by
evaluation. -/
instance {α β : Type} [DecidableEq α] [DecidableEq β] : DecidableEq (Except α β) := fun a b =>
  match a, b with
  | .error x, .error y =>
    if h : x = y then isTrue (by simp [h]) else isFalse (by simp [h])
  | .error _, .ok _ => isFalse (by simp)
  | .ok _, .error _ => isFalse (by simp)
  | .ok x, .ok y =>
    if h : x = y then isTrue (by simp [h]) else isFalse (by simp [h])

/-- Snapshot protection status, mirroring the three RBD_PROTECTION_STATUS
values of the header record. -/
inductive ProtStatus where
  | unprotected
  | unprotecting
  | protectedSt
deriving DecidableEq, Repr

/-- The predicate from internal.cc line 228: a read at offset off on a
device with the given parent pool id and overlap falls through to the
parent. Source: `return (parent_pool_id != -1 && off <= overlap);`. -/
def has_parent (parent_pool_id : Int) (off overlap : Nat) : Bool :=
  parent_pool_id != -1 && off ≤ overlap

/-- One storage pool as seen by the snap_unprotect scan: its id, the
result of rados.pool_get_base_tier, the result of ioctx_create2, and the
result of cls_client::get_children for the parent spec being checked. -/
structure PoolScan where
  id : Int
  baseTier : Except Int Int
  ioctxR : Int
  childrenR : Int
deriving DecidableEq

/-- Outcome of the pool scan inside snap_unprotect. -/
inductive ScanRes where
  | clean
  | busy
  | fail (e : Int)
deriving DecidableEq, Repr

/-- The pool-scan loop of snap_unprotect (internal.cc lines 875-920):
skip pools whose base tier can no longer be found (-enoent), skip cache
pools (id differs from base tier), skip pools whose ioctx creation hits
-enoent; stop with the underlying error on any other failure; stop with
busy when get_children succeeds (children exist); -enoent from
get_children means no children in that pool. -/
def scanPools : List PoolScan → ScanRes
  | [] => .clean
  | p :: ps =>
    match p.baseTier with
    | .error e => if e = -enoent then scanPools ps else .fail e
    | .ok bt =>
      if p.id ≠ bt then scanPools ps
      else if p.ioctxR = -enoent then scanPools ps
      else if p.ioctxR < 0 then .fail p.ioctxR
      else if p.childrenR < 0 && p.childrenR ≠ -enoent then .fail p.childrenR
      else if p.childrenR = 0 then .busy
      else scanPools ps

/-- Environment for snap_unprotect: prior checks and the results of the
external calls it performs. setStatusR gives the result of
cls_client::set_protection_status per requested status value. -/
structure UnprotEnv where
  readOnly : Bool
  checkR : Int
  layering : Bool
  snapId : Option Nat
  isUnprotR : Except Int Bool
  pools : List PoolScan
  setStatusR : ProtStatus → Int

/-- The embedding of snap_unprotect (internal.cc lines 824-945). Returns
the function result together with the ordered list of protection-status
writes attempted against the header, each with the status requested and
the result the write returned. -/
def snap_unprotect (env : UnprotEnv) : Int × List (ProtStatus × Int) :=
  if env.readOnly then (-erofs, [])
  else if env.checkR < 0 then (env.checkR, [])
  else if !env.layering then (-enosys, [])
  else
    match env.snapId with
    | none => (-enoent, [])
    | some _ =>
      match env.isUnprotR with
      | .error e => (e, [])
      | .ok true => (-einval, [])
      | .ok false =>
        let w1 := env.setStatusR .unprotecting
        if w1 < 0 then (w1, [(.unprotecting, w1)])
        else
          match scanPools env.pools with
          | .busy =>
            let wp := env.setStatusR .protectedSt
            (-ebusy, [(.unprotecting, w1), (.protectedSt, wp)])
          | .fail e =>
            let wp := env.setStatusR .protectedSt
            (e, [(.unprotecting, w1), (.protectedSt, wp)])
          | .clean =>
            let w2 := env.setStatusR .unprotected
            if w2 < 0 then
              let wp := env.setStatusR .protectedSt
              (w2, [(.unprotecting, w1), (.unprotected, w2), (.protectedSt, wp)])
            else (0, [(.unprotecting, w1), (.unprotected, w2)])

/-- Parent specification: (store-location id, parent image id, parent
snapshot id), as in parent_spec of the source. -/
structure ParentSpec where
  poolId : Int
  imageId : String
  snapId : Nat
deriving DecidableEq, Repr

/-- Parent linkage: a parent spec plus the copy-on-write overlap. -/
structure ParentInfo where
  spec : ParentSpec
  overlap : Nat
deriving DecidableEq, Repr

/-- One snapshot record of the Snapshot Table. -/
structure SnapInfo where
  name : String
  size : Nat
  parent : ParentInfo
  protection : ProtStatus
  flags : Nat
deriving DecidableEq, Repr

/-- The open parent device handle cached by a clone: the identity the
handle was opened against and the snapshot view selected on it. -/
structure ParentHandle where
  poolId : Int
  imageId : String
  snapId : Nat
  snapName : String
deriving DecidableEq, Repr

/-- The view of the device state that the parent resolver reads: the
active snapshot id, the (already rebuilt) snapshot table, and the live
view's parent linkage record. -/
structure ParentView where
  snapId : Nat
  table : List (Nat × SnapInfo)
  parentMd : ParentInfo
deriving DecidableEq, Repr

/-- Modelled from the spec: the ImageCtx parent-linkage accessors
(get_parent_spec / get_parent_overlap and friends, ImageCtx is not under
src/). Per section 3 (Parent Linkage), the live view uses the handle's
own parent record, a snapshot view uses the linkage recorded in that
snapshot's record, and a missing snapshot yields NotFound. -/
def ParentView.info (v : ParentView) : Except Int ParentInfo :=
  if v.snapId = CEPH_NOSNAP then .ok v.parentMd
  else
    match v.table.find? (fun kv => kv.1 = v.snapId) with
    | some kv => .ok kv.2.parent
    | none => .error (-enoent)

/-- Modelled from the spec: ImageCtx::get_parent_pool_id, returning -1
when there is no parent linkage for the active view. -/
def ParentView.poolId (v : ParentView) : Int :=
  match v.info with
  | .ok pi => pi.spec.poolId
  | .error _ => -1

/-- Modelled from the spec: ImageCtx::get_parent_image_id. -/
def ParentView.imgId (v : ParentView) : String :=
  match v.info with
  | .ok pi => pi.spec.imageId
  | .error _ => ""

/-- Modelled from the spec: ImageCtx::get_parent_snap_id. -/
def ParentView.psnapId (v : ParentView) : Nat :=
  match v.info with
  | .ok pi => pi.spec.snapId
  | .error _ => CEPH_NOSNAP

/-- Modelled from the spec: ImageCtx::get_parent_overlap. -/
def ParentView.overlapR (v : ParentView) : Except Int Nat :=
  match v.info with
  | .ok pi => .ok pi.overlap
  | .error e => .error e

/-- What happened to the partially constructed parent handle during
open_parent: whether the child ImageCtx was constructed, whether
open_image succeeded on it, and whether close_image was run on it. -/
structure OPEffects where
  constructed : Bool
  openOk : Bool
  closed : Bool
deriving DecidableEq, Repr

/-- Result of open_parent: the returned code, the final value of the
device's parent field (the source assigns ictx->parent inside
open_parent and nulls it on every failure), and the teardown effects. -/
structure OPResult where
  r : Int
  parentField : Option ParentHandle
  eff : OPEffects
deriving DecidableEq, Repr

/-- Environment for the parent resolver: results of pool_reverse_lookup
(by pool id), ioctx_create (by pool name), open_image on the parent
handle, get_snap_name on the freshly opened parent (by snapshot id), and
the recursive refresh_parent call on the parent. -/
structure ParentEnv where
  poolName : Int → Except Int String
  ioctxCreateR : String → Int
  openImageR : Except Int Unit
  parentSnapName : Nat → Except Int String
  parentRefreshR : Int

/-- The embedding of open_parent (internal.cc lines 1641-1720). A
pool-lookup or ioctx failure happens before the child handle is
constructed; an open_image failure tears the handle down inside
open_image itself (its err_close path, lines 2704-2706) and the caller
then nulls the parent field; a snapshot-name resolution failure or a
recursive refresh failure runs close_image explicitly and nulls the
field. On success the handle is bound to the parent spec that was read
from the view and the resolved snapshot name is selected. -/
def open_parent (env : ParentEnv) (v : ParentView) : OPResult :=
  if v.poolId < 0 then ⟨-enoent, none, ⟨false, false, false⟩⟩
  else
    match env.poolName v.poolId with
    | .error e => ⟨e, none, ⟨false, false, false⟩⟩
    | .ok pname =>
      let rc := env.ioctxCreateR pname
      if rc < 0 then ⟨rc, none, ⟨false, false, false⟩⟩
      else
        match env.openImageR with
        | .error e => ⟨e, none, ⟨true, false, true⟩⟩
        | .ok _ =>
          match env.parentSnapName v.psnapId with
          | .error e => ⟨e, none, ⟨true, true, true⟩⟩
          | .ok nm =>
            if env.parentRefreshR < 0 then
              ⟨env.parentRefreshR, none, ⟨true, true, true⟩⟩
            else ⟨0, some ⟨v.poolId, v.imgId, v.psnapId, nm⟩, ⟨true, true, false⟩⟩

/-- Result of refresh_parent: return code, final parent field, and
whether the previously cached parent handle was closed. -/
structure RPResult where
  r : Int
  parent : Option ParentHandle
  closedOld : Bool
deriving DecidableEq, Repr

/-- The embedding of refresh_parent (internal.cc lines 2132-2167): when
a parent handle is cached, close it if the overlap read fails with
NotFound, or the overlap has dropped to zero, or the cached handle's
(pool, image id, snap id) no longer matches what the view implies; any
other overlap-read failure is returned as is. Afterwards, when the view
still names a parent pool and no handle is cached, open_parent runs. -/
def refresh_parent (env : ParentEnv) (p0 : Option ParentHandle) (v : ParentView) : RPResult :=
  let step : Except Int (Option ParentHandle × Bool) :=
    match p0 with
    | none => .ok (none, false)
    | some p =>
      match v.overlapR with
      | .error e => if e ≠ -enoent then .error e else .ok (none, true)
      | .ok ov =>
        if ov = 0 ∨ p.poolId ≠ v.poolId ∨ p.imageId ≠ v.imgId ∨ p.snapId ≠ v.psnapId
        then .ok (none, true)
        else .ok (some p, false)
  match step with
  | .error e => ⟨e, p0, false⟩
  | .ok (p1, closed) =>
    if v.poolId > -1 ∧ p1 = none then
      let o := open_parent env v
      ⟨o.r, o.parentField, closed⟩
    else ⟨0, p1, closed⟩

/-- Concrete parent environment where every external call succeeds. -/
def cEnvA : ParentEnv :=
  ⟨fun _ => .ok "pool", fun _ => 0, .ok (), fun _ => .ok "psnap", 0⟩

/-- Concrete parent environment where open_image on the parent fails. -/
def cEnvB : ParentEnv :=
  ⟨fun _ => .ok "pool", fun _ => 0, .error (-eio), fun _ => .ok "nm", 0⟩

/-- Concrete view whose active (live) view carries a parent linkage with
overlap zero. -/
def cViewZeroOverlap : ParentView :=
  ⟨CEPH_NOSNAP, [], ⟨⟨0, "pimg", 4⟩, 0⟩⟩

/-- Concrete view whose active (live) view carries a live parent linkage. -/
def cViewLive : ParentView :=
  ⟨CEPH_NOSNAP, [], ⟨⟨1, "pimg", 4⟩, 10⟩⟩

/-- C4, counterexample: the claim says the has_parent predicate is false
whenever overlap is zero, for every offset; but the source test is
off <= overlap, so at parent pool id 0, offset 0 and overlap 0 it is
true. -/
theorem c4_counterexample : has_parent 0 0 0 = true := by decide

/-- C4, amended: on a device whose parent overlap is zero, no read at a
positive offset is forwarded to the parent (has_parent is false whenever
overlap is zero and the offset is positive; at offset 0 the off <=
overlap test still holds), and refresh closes a cached parent handle
when the overlap has dropped to zero. -/
theorem c4_zero_overlap_no_parent_read (pid : Int) (off ov : Nat)
    (env : ParentEnv) (p : ParentHandle) (v : ParentView) (pinf : ParentInfo)
    (hov : ov = 0) (hoff : 0 < off)
    (hinfo : v.info = .ok pinf) (hzero : pinf.overlap = 0) :
    has_parent pid off ov = false ∧
    (refresh_parent env (some p) v).closedOld = true := by
  constructor
  · subst hov
    simp [has_parent, Nat.le_zero]
    omega
  · have hov' : v.overlapR = .ok 0 := by
      simp [ParentView.overlapR, hinfo, hzero]
    unfold refresh_parent
    simp only [hov']
    by_cases hp : v.poolId > -1 <;> simp [hp]

/-- C4 witness: the amended theorem applied at offset 1, overlap 0, with
a cached parent handle and a view whose linkage records overlap 0. -/
theorem c4_zero_overlap_witness :
    has_parent 0 1 0 = false ∧
    (refresh_parent cEnvA (some ⟨0, "pimg", 4, "s"⟩) cViewZeroOverlap).closedOld = true :=
  c4_zero_overlap_no_parent_read 0 1 0 cEnvA ⟨0, "pimg", 4, "s"⟩
    cViewZeroOverlap ⟨⟨0, "pimg", 4⟩, 0⟩ rfl (by decide) (by decide) rfl

/-- C7: whenever open_parent returns an error, the device's parent field
is left unset and, if the child handle was already constructed, it has
been closed (torn down) before returning; the error code itself is the
one the failing step produced. -/
theorem c7_open_parent_teardown (env : ParentEnv) (v : ParentView) (res : OPResult)
    (h : open_parent env v = res) (herr : res.r < 0) :
    res.parentField = none ∧ (res.eff.constructed = true → res.eff.closed = true) := by
  subst h
  by_cases h1 : v.poolId < 0
  · simp [open_parent, h1]
  · rcases hpn : env.poolName v.poolId with e | pname
    · simp [open_parent, h1, hpn]
    · by_cases h2 : env.ioctxCreateR pname < 0
      · simp [open_parent, h1, hpn, h2]
      · rcases hoi : env.openImageR with e | u
        · simp [open_parent, h1, hpn, h2, hoi]
        · rcases hsn : env.parentSnapName v.psnapId with e | nm
          · simp [open_parent, h1, hpn, h2, hoi, hsn]
          · by_cases h3 : env.parentRefreshR < 0
            · simp [open_parent, h1, hpn, h2, hoi, hsn, h3]
            · exfalso
              simp [open_parent, h1, hpn, h2, hoi, hsn, h3] at herr

/-- C7 witness: open_parent with a failing open_image, applied to the
teardown theorem at that concrete environment. -/
theorem c7_open_parent_witness :
    (open_parent cEnvB cViewLive).parentField = none ∧
    ((open_parent cEnvB cViewLive).eff.constructed = true →
      (open_parent cEnvB cViewLive).eff.closed = true) :=
  c7_open_parent_teardown cEnvB cViewLive _ rfl (by decide)

/-- C3: on an unprotect of a live, not-already-unprotected snapshot that
passes the entry checks and whose transitional status write succeeds:
the first status write is the transitional one; the scan skips cache
(non-base-tier) pools; a child found makes the result Busy with a
rollback write to protected; a failing enumeration step makes the result
that error with a rollback write to protected; a clean scan sets the
status to unprotected and succeeds. -/
theorem c3_unprotect_scan (env : UnprotEnv) (sid : Nat)
    (h1 : env.readOnly = false) (h2 : env.checkR = 0) (h3 : env.layering = true)
    (h4 : env.snapId = some sid) (h5 : env.isUnprotR = .ok false)
    (h6 : env.setStatusR .unprotecting = 0) :
    (snap_unprotect env).2.head? = some (.unprotecting, 0) ∧
    (∀ (p : PoolScan) (ps : List PoolScan) (bt : Int),
      p.baseTier = .ok bt → p.id ≠ bt → scanPools (p :: ps) = scanPools ps) ∧
    (scanPools env.pools = .busy →
      snap_unprotect env =
        (-ebusy, [(.unprotecting, 0), (.protectedSt, env.setStatusR .protectedSt)])) ∧
    (∀ e, scanPools env.pools = .fail e →
      snap_unprotect env =
        (e, [(.unprotecting, 0), (.protectedSt, env.setStatusR .protectedSt)])) ∧
    (scanPools env.pools = .clean → env.setStatusR .unprotected = 0 →
      snap_unprotect env = (0, [(.unprotecting, 0), (.unprotected, 0)])) := by
  refine ⟨?_, ?_, ?_, ?_, ?_⟩
  · cases hsc : scanPools env.pools <;>
      simp [snap_unprotect, h1, h2, h3, h4, h5, h6, hsc]
    by_cases hw2 : env.setStatusR .unprotected < 0 <;> simp [hw2]
  · intro p ps bt hbt hne
    simp [scanPools, hbt, hne]
  · intro hsc
    simp [snap_unprotect, h1, h2, h3, h4, h5, h6, hsc]
  · intro e hsc
    simp [snap_unprotect, h1, h2, h3, h4, h5, h6, hsc]
  · intro hsc hset
    simp [snap_unprotect, h1, h2, h3, h4, h5, h6, hsc, hset]

/-- Concrete unprotect environment: one cache pool (skipped) followed by
a base pool holding a registered child. -/
def cEnvC : UnprotEnv :=
  ⟨false, 0, true, some 7, .ok false,
    [⟨2, .ok 1, 0, -enoent⟩, ⟨1, .ok 1, 0, 0⟩], fun _ => 0⟩

/-- C3 witness: the unprotect theorem applied at a concrete environment
whose scan finds a child behind a skipped cache pool. -/
theorem c3_unprotect_witness :
    (snap_unprotect cEnvC).2.head? = some (.unprotecting, 0) ∧
    (∀ (p : PoolScan) (ps : List PoolScan) (bt : Int),
      p.baseTier = .ok bt → p.id ≠ bt → scanPools (p :: ps) = scanPools ps) ∧
    (scanPools cEnvC.pools = .busy →
      snap_unprotect cEnvC =
        (-ebusy, [(.unprotecting, 0), (.protectedSt, cEnvC.setStatusR .protectedSt)])) ∧
    (∀ e, scanPools cEnvC.pools = .fail e →
      snap_unprotect cEnvC =
        (e, [(.unprotecting, 0), (.protectedSt, cEnvC.setStatusR .protectedSt)])) ∧
    (scanPools cEnvC.pools = .clean → cEnvC.setStatusR .unprotected = 0 →
      snap_unprotect cEnvC = (0, [(.unprotecting, 0), (.unprotected, 0)])) :=
  c3_unprotect_scan cEnvC 7 rfl rfl rfl rfl rfl rfl

/-- Environment for the public snap_create / snap_remove wrappers: the
entry checks and the result of the lock-coordinated execution
(invoke_async_request) respectively of the direct helper call. -/
structure SnapOpEnv where
  readOnly : Bool
  checkR : Int
  nameIsLive : Bool
  fastDiff : Bool
  invokeR : Int
  helperR : Int

/-- The embedding of the public snap_create (internal.cc lines 580-611):
reject read-only, re-check metadata, reject a live name with
AlreadyExists, then run the lock-coordinated create; a negative result
other than AlreadyExists is returned, everything else yields success. -/
def snap_create (env : SnapOpEnv) : Int :=
  if env.readOnly then -erofs
  else if env.checkR < 0 then env.checkR
  else if env.nameIsLive then -eexist
  else if env.invokeR < 0 ∧ env.invokeR ≠ -eexist then env.invokeR
  else 0

/-- The embedding of the public snap_remove (internal.cc lines 666-707):
reject read-only, re-check metadata, reject a missing name with
NotFound; with the fast-diff feature the removal is lock-coordinated and
a negative result other than AlreadyExists is returned; without it the
helper runs directly under the topology guard and any negative result is
returned. -/
def snap_remove (env : SnapOpEnv) : Int :=
  if env.readOnly then -erofs
  else if env.checkR < 0 then env.checkR
  else if !env.nameIsLive then -enoent
  else if env.fastDiff then
    if env.invokeR < 0 ∧ env.invokeR ≠ -eexist then env.invokeR else 0
  else
    if env.helperR < 0 then env.helperR else 0

/-- C9: when the lock-coordinated execution of a snapshot create, or of a
snapshot remove on a fast-diff device, returns AlreadyExists, the public
operation swallows it and reports success. -/
theorem c9_already_exists_swallowed (e1 e2 : SnapOpEnv)
    (h1 : e1.readOnly = false) (h2 : e1.checkR = 0) (h3 : e1.nameIsLive = false)
    (h4 : e1.invokeR = -eexist)
    (h5 : e2.readOnly = false) (h6 : e2.checkR = 0) (h7 : e2.nameIsLive = true)
    (h8 : e2.fastDiff = true) (h9 : e2.invokeR = -eexist) :
    snap_create e1 = 0 ∧ snap_remove e2 = 0 := by
  constructor
  · simp [snap_create, h1, h2, h3, h4]
  · simp [snap_remove, h5, h6, h7, h8, h9]

/-- C9 witness: both wrappers at concrete environments whose coordinated
execution reports AlreadyExists. -/
theorem c9_already_exists_witness :
    snap_create ⟨false, 0, false, true, -eexist, 0⟩ = 0 ∧
    snap_remove ⟨false, 0, true, true, -eexist, 0⟩ = 0 :=
  c9_already_exists_swallowed ⟨false, 0, false, true, -eexist, 0⟩
    ⟨false, 0, true, true, -eexist, 0⟩ rfl rfl rfl rfl rfl rfl rfl rfl rfl

/-- Modelled from the spec: ImageCtx::get_snap_id, the Snapshot Table
name lookup (ImageCtx is not under src/). Names are unique among live
records; the map assignment used when the table is rebuilt makes the
last inserted record win on duplicates. -/
def lookupName (table : List (Nat × SnapInfo)) (nm : String) : Option Nat :=
  (table.reverse.find? (fun kv => kv.2.name = nm)).map (fun kv => kv.1)

/-- Modelled from the spec: ImageCtx::is_snap_unprotected (ImageCtx is
not under src/): reports whether the named snapshot's protection status
is the plain unprotected state, NotFound when the id is absent. -/
def is_snap_unprotected (table : List (Nat × SnapInfo)) (sid : Nat) : Except Int Bool :=
  match table.find? (fun kv => kv.1 = sid) with
  | some kv => .ok (decide (kv.2.protection = .unprotected))
  | none => .error (-enoent)

/-- The embedding of the public snap_is_protected (internal.cc lines
947-967): after the metadata check and the name lookup, the reported
protection is the negation of is_snap_unprotected — the source comments
that both PROTECTED and UNPROTECTING count as protected since in either
state the snapshot cannot be deleted. -/
def snap_is_protected (checkR : Int) (table : List (Nat × SnapInfo)) (nm : String) :
    Except Int Bool :=
  if checkR < 0 then .error checkR
  else
    match lookupName table nm with
    | none => .error (-enoent)
    | some sid =>
      match is_snap_unprotected table sid with
      | .ok u => .ok (!u)
      | .error e => .error e

/-- C10: for a live snapshot the protection query reports protected
exactly when the snapshot is not in the unprotected state, so both the
protected and the transitional unprotecting state are observed as
protected. -/
theorem c10_protection_query (checkR : Int) (table : List (Nat × SnapInfo))
    (nm : String) (sid : Nat) (si : SnapInfo)
    (h1 : checkR = 0) (h2 : lookupName table nm = some sid)
    (h3 : table.find? (fun kv => kv.1 = sid) = some (sid, si)) :
    snap_is_protected checkR table nm = .ok (!decide (si.protection = .unprotected)) ∧
    (snap_is_protected checkR table nm = .ok true ↔
      (si.protection = .protectedSt ∨ si.protection = .unprotecting)) := by
  have hmain : snap_is_protected checkR table nm =
      .ok (!decide (si.protection = .unprotected)) := by
    simp [snap_is_protected, h1, h2, is_snap_unprotected, h3]
  refine ⟨hmain, ?_⟩
  rw [hmain]
  cases hp : si.protection <;> simp [hp]

/-- Concrete table with one snapshot caught mid-unprotect. -/
def cTableE : List (Nat × SnapInfo) :=
  [(3, ⟨"s1", 100, ⟨⟨-1, "", 0⟩, 0⟩, .unprotecting, 0⟩)]

/-- C10 witness: the protection query applied to a snapshot in the
transitional unprotecting state still reports it as protected. -/
theorem c10_protection_witness :
    snap_is_protected 0 cTableE "s1" =
      .ok (!decide ((ProtStatus.unprotecting : ProtStatus) = .unprotected)) ∧
    (snap_is_protected 0 cTableE "s1" = .ok true ↔
      ((ProtStatus.unprotecting : ProtStatus) = .protectedSt ∨
        (ProtStatus.unprotecting : ProtStatus) = .unprotecting)) :=
  c10_protection_query 0 cTableE "s1" 3 ⟨"s1", 100, ⟨⟨-1, "", 0⟩, 0⟩, .unprotecting, 0⟩
    rfl (by decide) (by decide)

/-- The embedding of scan_for_parents (internal.cc lines 647-664): when
the parent spec names a pool, search the snapshot records other than the
one being removed for a sibling still referencing the same parent spec;
NotFound when none does, success otherwise (and trivially success when
there is no parent). -/
def scan_for_parents (table : List (Nat × SnapInfo)) (pspec : ParentSpec)
    (oursnap : Nat) : Int :=
  if pspec.poolId ≠ -1 then
    if table.any (fun kv => decide (kv.1 ≠ oursnap) && decide (kv.2.parent.spec = pspec))
    then 0 else -enoent
  else 0

/-- Modelled from the spec: the header codec's snapshot-record removal
(cls backend rbd snapshot_remove, not under src/) refuses to delete a
snapshot that is not in the plain unprotected state — the source's
snap_is_protected comment records that in PROTECTED or UNPROTECTING
state a snapshot cannot be deleted — and deletes the record otherwise. -/
def clsSnapshotRemove (st : ProtStatus) : Int :=
  if st = .unprotected then 0 else -ebusy

/-- Environment for snap_remove_helper: results of the metadata check,
the name lookup, the object-map snapshot removal, the parent-spec fetch
for the doomed snapshot, the child-index deregistration, the header
snapshot-record removal, and the store-level sequence-id release. -/
structure RemoveEnv where
  checkR : Int
  snapId : Option Nat
  objectMapRemoveR : Int
  parentSpecR : Except Int ParentSpec
  removeChildR : Int
  clsSnapshotRemoveR : Int
  selfmanagedRemoveR : Int

/-- Mutations applied by the time snap_remove_helper returns. -/
structure RemoveEffects where
  objectMapRemoved : Bool
  childDeregistered : Bool
  headerRecordRemoved : Bool
  seqReleased : Bool
deriving DecidableEq, Repr

/-- The embedding of snap_remove_helper (internal.cc lines 709-781), in
source order: metadata check, name lookup, object-map snapshot-state
removal, parent-spec fetch, child-index deregistration when no sibling
snapshot still references the same parent spec, header snapshot-record
removal (rm_snap), and finally the release of the store-level sequence
id. Each failing step returns its error, leaving the effects of the
steps already executed in place. -/
def snap_remove_helper (env : RemoveEnv) (parentMdSpec : ParentSpec)
    (table : List (Nat × SnapInfo)) : Int × RemoveEffects :=
  if env.checkR < 0 then (env.checkR, ⟨false, false, false, false⟩)
  else
    match env.snapId with
    | none => (-enoent, ⟨false, false, false, false⟩)
    | some sid =>
      if env.objectMapRemoveR < 0 then (env.objectMapRemoveR, ⟨false, false, false, false⟩)
      else
        match env.parentSpecR with
        | .error e => (e, ⟨true, false, false, false⟩)
        | .ok ps =>
          let needDereg := parentMdSpec ≠ ps ∧ scan_for_parents table ps sid = -enoent
          if needDereg ∧ env.removeChildR < 0 ∧ env.removeChildR ≠ -enoent then
            (env.removeChildR, ⟨true, false, false, false⟩)
          else
            let dereg := decide needDereg && decide (env.removeChildR = 0)
            if env.clsSnapshotRemoveR < 0 then
              (env.clsSnapshotRemoveR, ⟨true, dereg, false, false⟩)
            else if env.selfmanagedRemoveR < 0 then
              (env.selfmanagedRemoveR, ⟨true, dereg, true, false⟩)
            else (0, ⟨true, dereg, true, true⟩)

/-- Concrete remove environment: the doomed snapshot is protected, so
the header-record removal is refused with Busy, yet the object-map state
was removed and the child index deregistered before that point. -/
def cEnvD : RemoveEnv :=
  ⟨0, some 5, 0, .ok ⟨0, "pimg", 1⟩, 0, clsSnapshotRemove .protectedSt, 0⟩

/-- Parent spec of the live view in the C5 scenario (no parent). -/
def cPmdD : ParentSpec := ⟨-1, "", 0⟩

/-- Snapshot table of the C5 scenario: only the doomed snapshot
references the parent spec. -/
def cTableD : List (Nat × SnapInfo) :=
  [(5, ⟨"s1", 100, ⟨⟨0, "pimg", 1⟩, 64⟩, .protectedSt, 0⟩)]

/-- C5, counterexample: removing a protected snapshot is rejected (with
Busy, at the header-record removal), but by then the per-snapshot
object-map state has been removed and the device deregistered from its
parent's child index — the remove returns an error with side effects
already applied, contradicting the claim that nothing is changed when
the remove returns an error. -/
theorem c5_counterexample :
    (snap_remove_helper cEnvD cPmdD cTableD).1 = -ebusy ∧
    (snap_remove_helper cEnvD cPmdD cTableD).2.objectMapRemoved = true ∧
    (snap_remove_helper cEnvD cPmdD cTableD).2.childDeregistered = true := by
  decide

/-- C5, amended: the rejection of a protected snapshot's removal happens
at the header-record removal step, which fails with Busy and leaves the
header's snapshot record in place and the store-level sequence id
unreleased; the earlier per-snapshot object-map removal and child-index
deregistration, however, may already have been applied and are not
rolled back. -/
theorem c5_remove_protected_header_untouched (env : RemoveEnv)
    (parentMdSpec : ParentSpec) (table : List (Nat × SnapInfo)) (sid : Nat)
    (h1 : env.checkR = 0) (h2 : env.snapId = some sid)
    (h3 : env.objectMapRemoveR = 0) (h4 : env.parentSpecR = .ok ⟨0, "pimg", 1⟩)
    (h5 : env.removeChildR = 0)
    (h6 : env.clsSnapshotRemoveR = clsSnapshotRemove .protectedSt) :
    (snap_remove_helper env parentMdSpec table).1 = -ebusy ∧
    (snap_remove_helper env parentMdSpec table).2.headerRecordRemoved = false ∧
    (snap_remove_helper env parentMdSpec table).2.seqReleased = false ∧
    (snap_remove_helper env parentMdSpec table).2.objectMapRemoved = true := by
  have h6' : env.clsSnapshotRemoveR = -ebusy := by
    rw [h6]; decide
  simp only [snap_remove_helper, h1, h2, h3, h4, h5, h6']
  norm_num [ebusy, enoent]

/-- C5 witness: the amended theorem applied at the concrete protected
scenario. -/
theorem c5_remove_protected_witness :
    (snap_remove_helper cEnvD cPmdD cTableD).1 = -ebusy ∧
    (snap_remove_helper cEnvD cPmdD cTableD).2.headerRecordRemoved = false ∧
    (snap_remove_helper cEnvD cPmdD cTableD).2.seqReleased = false ∧
    (snap_remove_helper cEnvD cPmdD cTableD).2.objectMapRemoved = true :=
  c5_remove_protected_header_untouched cEnvD cPmdD cTableD 5 rfl rfl rfl rfl rfl rfl

/-- Strictly descending list of snapshot ids. -/
def sdesc : List Nat → Bool
  | [] => true
  | [_] => true
  | a :: b :: t => decide (b < a) && sdesc (b :: t)

/-- Snapshot context: latest sequence id plus the snapshot ids. -/
structure SnapCtx where
  seq : Nat
  snaps : List Nat
deriving DecidableEq, Repr

/-- Modelled from the spec: SnapContext::is_valid (common snap types,
not under src/): the context is structurally valid when its ids are
strictly descending (hence duplicate-free) and bounded by the sequence
number. -/
def SnapCtx.isValid (c : SnapCtx) : Bool :=
  sdesc c.snaps &&
    (match c.snaps.head? with
     | some h => decide (h ≤ c.seq)
     | none => true)

/-- Modelled from librbd feature bits (headers not under src/); the
concrete values are immaterial to the claims. -/
def RBD_FEATURE_FAST_DIFF : Nat := 16

/-- Modelled from librbd feature bits: the mask of features this client
understands. -/
def RBD_FEATURES_ALL : Nat := 31

/-- Modelled from librbd flag bits. -/
def RBD_FLAG_OBJECT_MAP_INVALID : Nat := 1

/-- The 64-bit complement of the understood-feature mask, used for the
incompatible-capability check. -/
def RBD_FEATURES_INCOMPATIBLE_MASK : Nat := 2 ^ 64 - 1 - RBD_FEATURES_ALL

/-- Modelled from librbd flag bits. -/
def RBD_FLAG_FAST_DIFF_INVALID : Nat := 2

/-- The Device Handle state mutated by the refresh engine: cached
metadata, the Snapshot Table, the snapshot context, the parent linkage
and handle, lock observations of the header, and the staleness
tracker's observed generation. -/
structure IctxState where
  oldFormat : Bool
  readOnly : Bool
  snapId : Nat
  snapName : String
  snapExists : Bool
  size : Nat
  order : Nat
  objectPrefix : String
  features : Nat
  flags : Nat
  snaps : List Nat
  snapInfo : List (Nat × SnapInfo)
  snapc : SnapCtx
  parentMd : ParentInfo
  parent : Option ParentHandle
  lockers : List String
  exclusiveLocked : Bool
  lockTag : String
  lastRefresh : Nat
deriving DecidableEq, Repr

/-- Fixed-size legacy header fields read by the old-format branch. -/
structure OldHeader where
  imageSize : Nat
  order : Nat
  blockName : String
deriving DecidableEq, Repr

/-- The result bundle of cls_client::get_mutable_metadata. -/
structure MutableMd where
  size : Nat
  features : Nat
  incompatible : Nat
  lockers : List String
  exclusiveLocked : Bool
  lockTag : String
  snapc : SnapCtx
  parentMd : ParentInfo
deriving DecidableEq, Repr

/-- Environment for ictx_refresh: the target generation and the results
of every external read it performs, per format, plus the parent
resolver's environment. -/
structure RefreshEnv where
  refreshSeq : Nat
  oldHeaderR : Except Int OldHeader
  oldSnapListR : Except Int (List String × List Nat × SnapCtx)
  lockInfoR : Int
  oldLockers : List String
  oldLockTag : String
  oldLockExclusive : Bool
  mutableMdR : Except Int MutableMd
  flagsR : Except Int (Nat × List Nat)
  snapListR : Except Int (List String × List Nat × List ParentInfo × List ProtStatus)
  parentEnv : ParentEnv

/-- Well-formedness of a refresh environment: failing external calls
report negative errno codes, as the object store and cls backend do. -/
def RefreshEnv.wf (env : RefreshEnv) : Prop :=
  (∀ e, env.oldHeaderR = .error e → e < 0) ∧
  (∀ e, env.oldSnapListR = .error e → e < 0) ∧
  (∀ e, env.mutableMdR = .error e → e < 0) ∧
  (∀ e, env.flagsR = .error e → e < 0) ∧
  (∀ e, env.snapListR = .error e → e < 0) ∧
  (∀ pid e, env.parentEnv.poolName pid = .error e → e < 0) ∧
  (∀ e, env.parentEnv.openImageR = .error e → e < 0) ∧
  (∀ sid e, env.parentEnv.parentSnapName sid = .error e → e < 0)

/-- The snapshot-table rebuild of ictx_refresh (lines 2310-2322): one
record per id of the new snapshot context; old-format devices get zero
flags, unprotected status and no per-snapshot parent. -/
def buildTable (oldFormat : Bool) (snapIds : List Nat) (names : List String)
    (sizes : List Nat) (parents : List ParentInfo) (prots : List ProtStatus)
    (flagsL : List Nat) : List (Nat × SnapInfo) :=
  (List.range snapIds.length).map fun i =>
    (snapIds.getD i 0,
      ⟨names.getD i "", sizes.getD i 0,
        if oldFormat then ⟨⟨-1, "", 0⟩, 0⟩ else parents.getD i ⟨⟨-1, "", 0⟩, 0⟩,
        if oldFormat then .unprotected else prots.getD i .unprotected,
        if oldFormat then 0 else flagsL.getD i 0⟩)

/-- The common tail of ictx_refresh (lines 2295-2356): rebuild the
Snapshot Table wholesale, re-resolve the parent linkage against the new
table, validate the snapshot context, install it, mark a selected view
whose name no longer resolves to its recorded id as no longer existing,
and advance the observed generation. The newly-appeared-snapshot diff of
lines 2295-2308 only triggers an external flush and does not enter the
handle state. -/
def refreshTail (env : RefreshEnv) (s : IctxState) (snapc : SnapCtx)
    (names : List String) (sizes : List Nat) (parents : List ParentInfo)
    (prots : List ProtStatus) (flagsL : List Nat) : Int × IctxState :=
  let table := buildTable s.oldFormat snapc.snaps names sizes parents prots flagsL
  let rp := refresh_parent env.parentEnv s.parent ⟨s.snapId, table, s.parentMd⟩
  if rp.r < 0 then
    (rp.r, {s with snaps := snapc.snaps, snapInfo := table, parent := rp.parent})
  else if !snapc.isValid then
    (-eio, {s with snaps := snapc.snaps, snapInfo := table, parent := rp.parent})
  else if s.snapId ≠ CEPH_NOSNAP ∧ lookupName table s.snapName ≠ some s.snapId then
    (0, {s with snaps := snapc.snaps, snapInfo := table, parent := rp.parent,
                snapc := snapc, snapExists := false, lastRefresh := env.refreshSeq})
  else
    (0, {s with snaps := snapc.snaps, snapInfo := table, parent := rp.parent,
                snapc := snapc, lastRefresh := env.refreshSeq})

/-- Outcome of the get_flags step of the new-format read. -/
inductive FlagsStep where
  | retry
  | fail (e : Int)
  | okFl (fl : Nat) (snapFlags : List Nat)

/-- The get_flags handling of ictx_refresh (lines 2258-2279): an OSD
without flag support (Unsupported or Io error) yields the invalid-marker
default flags for the image and every snapshot; NotFound means the image
raced with a snapshot deletion and the whole read restarts; any other
failure is returned. -/
def flagsStep (env : RefreshEnv) (md : MutableMd) : FlagsStep :=
  match env.flagsR with
  | .ok (fl, snapFlags) => .okFl fl snapFlags
  | .error e =>
    if e = -eopnotsupp ∨ e = -eio then
      let fl := Nat.lor RBD_FLAG_OBJECT_MAP_INVALID
        (if Nat.land md.features RBD_FEATURE_FAST_DIFF ≠ 0
         then RBD_FLAG_FAST_DIFF_INVALID else 0)
      .okFl fl (List.replicate md.snapc.snaps.length fl)
    else if e = -enoent then .retry
    else .fail e

/-- The new-format read loop of ictx_refresh (lines 2233-2292): read the
mutable metadata (whose success overwrites the cached size, features,
locker observations and live parent record), reject unsupported
capability bits, read flags and the snapshot listing, restarting the
whole read while either hits the benign NotFound race; the fuel bounds
the retry loop, none meaning it was exhausted. -/
def refreshNewLoop (env : RefreshEnv) (s : IctxState) : Nat → Option (Int × IctxState)
  | 0 => none
  | fuel + 1 =>
    match env.mutableMdR with
    | .error e => some (e, {s with lockers := ([] : List String)})
    | .ok md =>
      if Nat.land md.incompatible RBD_FEATURES_INCOMPATIBLE_MASK ≠ 0 then
        some (-enosys,
          {s with size := md.size, features := md.features, lockers := md.lockers,
                  exclusiveLocked := md.exclusiveLocked, lockTag := md.lockTag,
                  parentMd := md.parentMd})
      else
        match flagsStep env md with
        | .retry => refreshNewLoop env s fuel
        | .fail e =>
          some (e,
            {s with size := md.size, features := md.features, lockers := md.lockers,
                    exclusiveLocked := md.exclusiveLocked, lockTag := md.lockTag,
                    parentMd := md.parentMd})
        | .okFl fl snapFlags =>
          match env.snapListR with
          | .error e =>
            if e = -enoent then refreshNewLoop env s fuel
            else
              some (e,
                {s with size := md.size, features := md.features, lockers := md.lockers,
                        exclusiveLocked := md.exclusiveLocked, lockTag := md.lockTag,
                        parentMd := md.parentMd, flags := fl})
          | .ok (names, sizes, parents, prots) =>
            some (refreshTail env
              {s with size := md.size, features := md.features, lockers := md.lockers,
                      exclusiveLocked := md.exclusiveLocked, lockTag := md.lockTag,
                      parentMd := md.parentMd, flags := fl}
              md.snapc names sizes parents prots snapFlags)

/-- The embedding of ictx_refresh (internal.cc lines 2169-2357): clear
the cached locker list, then per format read the header data (legacy
fixed header plus old snapshot listing plus lock info, or the structured
mutable metadata) and run the common tail. -/
def ictx_refresh (env : RefreshEnv) (fuel : Nat) (s : IctxState) : Option (Int × IctxState) :=
  if s.oldFormat then
    match env.oldHeaderR with
    | .error e => some (e, {s with lockers := ([] : List String)})
    | .ok hdr =>
      match env.oldSnapListR with
      | .error e => some (e, {s with lockers := ([] : List String)})
      | .ok (names, sizes, snapc) =>
        if env.lockInfoR < 0 ∧ env.lockInfoR ≠ -eopnotsupp ∧ env.lockInfoR ≠ -eio then
          some (env.lockInfoR, {s with lockers := ([] : List String)})
        else
          let s2 :=
            if env.lockInfoR ≥ 0 then
              {s with lockers := env.oldLockers, lockTag := env.oldLockTag,
                      exclusiveLocked := env.oldLockExclusive, order := hdr.order,
                      size := hdr.imageSize, objectPrefix := hdr.blockName}
            else
              {s with lockers := ([] : List String), exclusiveLocked := false,
                      order := hdr.order, size := hdr.imageSize,
                      objectPrefix := hdr.blockName}
          some (refreshTail env s2 snapc names sizes [] [] [])
  else
    refreshNewLoop env s fuel

/-- The embedding of ictx_check (internal.cc lines 2106-2130): compare
the observed generation against the target and refresh only on
mismatch, propagating a refresh failure. -/
def ictx_check (env : RefreshEnv) (fuel : Nat) (s : IctxState) : Option (Int × IctxState) :=
  if s.lastRefresh ≠ env.refreshSeq then
    match ictx_refresh env fuel s with
    | none => none
    | some (r, s1) => if r < 0 then some (r, s1) else some (0, s1)
  else some (0, s)

/-- With well-formed failure codes, a non-negative open_parent result is
a success carrying a handle bound to exactly the parent spec of the
view, with the snapshot name the environment resolved for its id. -/
theorem open_parent_ok_shape (env : ParentEnv) (v : ParentView)
    (hpn : ∀ pid e, env.poolName pid = .error e → e < 0)
    (hoi : ∀ e, env.openImageR = .error e → e < 0)
    (hsn : ∀ sid e, env.parentSnapName sid = .error e → e < 0)
    (h : (open_parent env v).r ≥ 0) :
    ∃ nm, env.parentSnapName v.psnapId = .ok nm ∧
      open_parent env v = ⟨0, some ⟨v.poolId, v.imgId, v.psnapId, nm⟩, ⟨true, true, false⟩⟩ := by
  by_cases h1 : v.poolId < 0
  · exfalso
    simp [open_parent, h1, enoent] at h
  · rcases hpna : env.poolName v.poolId with e | pname
    · exfalso
      have := hpn v.poolId e hpna
      simp [open_parent, h1, hpna] at h
      omega
    · by_cases h2 : env.ioctxCreateR pname < 0
      · exfalso
        simp [open_parent, h1, hpna, h2] at h
        omega
      · rcases hoia : env.openImageR with e | u
        · exfalso
          have := hoi e hoia
          simp [open_parent, h1, hpna, h2, hoia] at h
          omega
        · rcases hsna : env.parentSnapName v.psnapId with e | nm
          · exfalso
            have := hsn v.psnapId e hsna
            simp [open_parent, h1, hpna, h2, hoia, hsna] at h
            omega
          · by_cases h3 : env.parentRefreshR < 0
            · exfalso
              simp [open_parent, h1, hpna, h2, hoia, hsna, h3] at h
              omega
            · refine ⟨nm, rfl, ?_⟩
              simp [open_parent, h1, hpna, h2, hoia, hsna, h3]

/-- The modelled parent-linkage accessor fails only with NotFound. -/
theorem info_error_code (v : ParentView) (e : Int) (h : v.info = .error e) :
    e = -enoent := by
  unfold ParentView.info at h
  by_cases h1 : v.snapId = CEPH_NOSNAP
  · simp [h1] at h
  · rcases hf : v.table.find? (fun kv => kv.1 = v.snapId) with _ | kv <;>
      simp [h1, hf] at h
    omega

/-- A view that still names a parent pool has a readable linkage record,
and its overlap read succeeds. -/
theorem overlapR_of_pool_pos (v : ParentView) (h : v.poolId > -1) :
    ∃ pinf, v.info = .ok pinf ∧ v.overlapR = .ok pinf.overlap := by
  rcases hi : v.info with e | pinf
  · exfalso
    simp [ParentView.poolId, hi] at h
  · exact ⟨pinf, rfl, by simp [ParentView.overlapR, hi]⟩

/-- Passing refresh_parent over the handle that open_parent just
produced keeps the handle and succeeds. -/
theorem refresh_parent_stable (env : ParentEnv) (v : ParentView)
    (hpn : ∀ pid e, env.poolName pid = .error e → e < 0)
    (hoi : ∀ e, env.openImageR = .error e → e < 0)
    (hsn : ∀ sid e, env.parentSnapName sid = .error e → e < 0)
    (hpool : v.poolId > -1) (ho : (open_parent env v).r ≥ 0) :
    (refresh_parent env (open_parent env v).parentField v).r = 0 ∧
    (refresh_parent env (open_parent env v).parentField v).parent =
      (open_parent env v).parentField := by
  obtain ⟨nm, hnm, hshape⟩ := open_parent_ok_shape env v hpn hoi hsn ho
  rw [hshape]
  obtain ⟨pinf, hi, hov⟩ := overlapR_of_pool_pos v hpool
  by_cases hz : pinf.overlap = 0
  · simp [refresh_parent, hov, hz, hpool, hshape]
  · simp [refresh_parent, hov, hz]

/-- Running refresh_parent a second time over its own (successful)
output is a success that keeps the parent field unchanged. -/
theorem refresh_parent_idem (env : ParentEnv) (v : ParentView) (p0 : Option ParentHandle)
    (hpn : ∀ pid e, env.poolName pid = .error e → e < 0)
    (hoi : ∀ e, env.openImageR = .error e → e < 0)
    (hsn : ∀ sid e, env.parentSnapName sid = .error e → e < 0)
    (h : (refresh_parent env p0 v).r ≥ 0) :
    (refresh_parent env (refresh_parent env p0 v).parent v).r = 0 ∧
    (refresh_parent env (refresh_parent env p0 v).parent v).parent =
      (refresh_parent env p0 v).parent := by
  cases p0 with
  | none =>
    by_cases hpool : v.poolId > -1
    · have hme : refresh_parent env none v =
          ⟨(open_parent env v).r, (open_parent env v).parentField, false⟩ := by
        simp [refresh_parent, hpool]
      rw [hme] at h ⊢
      exact refresh_parent_stable env v hpn hoi hsn hpool (by simpa using h)
    · have hme : refresh_parent env none v = ⟨0, none, false⟩ := by
        simp [refresh_parent, hpool]
      rw [hme]
      simp [hme]
  | some p =>
    rcases hi : v.info with e | pinf
    · have hpool : ¬ v.poolId > -1 := by simp [ParentView.poolId, hi]
      have hovE : v.overlapR = .error e := by simp [ParentView.overlapR, hi]
      have he : e = -enoent := info_error_code v e hi
      have hme : refresh_parent env (some p) v = ⟨0, none, true⟩ := by
        simp [refresh_parent, hovE, he, hpool]
      rw [hme]
      have hm2 : refresh_parent env none v = ⟨0, none, false⟩ := by
        simp [refresh_parent, hpool]
      simp [hm2]
    · have hov : v.overlapR = .ok pinf.overlap := by
        simp [ParentView.overlapR, hi]
      by_cases hc : pinf.overlap = 0 ∨ p.poolId ≠ v.poolId ∨ p.imageId ≠ v.imgId ∨
          p.snapId ≠ v.psnapId
      · by_cases hpool : v.poolId > -1
        · have hme : refresh_parent env (some p) v =
              ⟨(open_parent env v).r, (open_parent env v).parentField, true⟩ := by
            simp [refresh_parent, hov, hc, hpool]
          rw [hme] at h ⊢
          exact refresh_parent_stable env v hpn hoi hsn hpool (by simpa using h)
        · have hme : refresh_parent env (some p) v = ⟨0, none, true⟩ := by
            simp [refresh_parent, hov, hc, hpool]
          rw [hme]
          have hm2 : refresh_parent env none v = ⟨0, none, false⟩ := by
            simp [refresh_parent, hpool]
          simp [hm2]
      · have hme : refresh_parent env (some p) v = ⟨0, some p, false⟩ := by
          simp [refresh_parent, hov, hc]
        rw [hme]
        simp [hme]

/-- The refresh tail only rewrites the snapshot table, the snapshot
context, the parent handle, the view-existence mark and the observed
generation; every other Device Handle field passes through. -/
theorem refreshTail_fields (env : RefreshEnv) (s : IctxState) (snapc : SnapCtx)
    (names : List String) (sizes : List Nat) (parents : List ParentInfo)
    (prots : List ProtStatus) (flagsL : List Nat) (r : Int) (s1 : IctxState)
    (h : refreshTail env s snapc names sizes parents prots flagsL = (r, s1)) :
    s1.oldFormat = s.oldFormat ∧ s1.readOnly = s.readOnly ∧ s1.snapId = s.snapId ∧
    s1.snapName = s.snapName ∧ s1.size = s.size ∧ s1.order = s.order ∧
    s1.objectPrefix = s.objectPrefix ∧ s1.features = s.features ∧
    s1.flags = s.flags ∧ s1.lockers = s.lockers ∧
    s1.exclusiveLocked = s.exclusiveLocked ∧ s1.lockTag = s.lockTag ∧
    s1.parentMd = s.parentMd := by
  simp only [refreshTail] at h
  split_ifs at h <;>
    (rw [Prod.mk.injEq] at h; obtain ⟨h1, h2⟩ := h; subst h2; simp)

/-- Re-running the refresh tail over its own successful output with the
same header data returns success and the same state. -/
theorem refreshTail_idem (env : RefreshEnv) (s : IctxState) (snapc : SnapCtx)
    (names : List String) (sizes : List Nat) (parents : List ParentInfo)
    (prots : List ProtStatus) (flagsL : List Nat) (s1 : IctxState)
    (hpn : ∀ pid e, env.parentEnv.poolName pid = .error e → e < 0)
    (hoi : ∀ e, env.parentEnv.openImageR = .error e → e < 0)
    (hsn : ∀ sid e, env.parentEnv.parentSnapName sid = .error e → e < 0)
    (h : refreshTail env s snapc names sizes parents prots flagsL = (0, s1)) :
    refreshTail env s1 snapc names sizes parents prots flagsL = (0, s1) := by
  simp only [refreshTail] at h
  split_ifs at h with h1 h2 h3
  · obtain ⟨h0, -⟩ := Prod.mk.injEq .. ▸ h
    omega
  · obtain ⟨h0, -⟩ := Prod.mk.injEq .. ▸ h
    simp [eio] at h0
  · rw [Prod.mk.injEq] at h
    obtain ⟨-, hE⟩ := h
    subst hE
    obtain ⟨hr2, hp2⟩ := refresh_parent_idem env.parentEnv
      ⟨s.snapId, buildTable s.oldFormat snapc.snaps names sizes parents prots flagsL,
        s.parentMd⟩ s.parent hpn hoi hsn (by omega)
    simp only [refreshTail]
    simp [hr2, hp2, h2, h3]
  · rw [Prod.mk.injEq] at h
    obtain ⟨-, hE⟩ := h
    subst hE
    obtain ⟨hr2, hp2⟩ := refresh_parent_idem env.parentEnv
      ⟨s.snapId, buildTable s.oldFormat snapc.snaps names sizes parents prots flagsL,
        s.parentMd⟩ s.parent hpn hoi hsn (by omega)
    simp only [refreshTail]
    simp [hr2, hp2, h2, h3]

/-- A successful refresh tail advances the observed generation to the
target captured at entry. -/
theorem refreshTail_lastRefresh (env : RefreshEnv) (s : IctxState) (snapc : SnapCtx)
    (names : List String) (sizes : List Nat) (parents : List ParentInfo)
    (prots : List ProtStatus) (flagsL : List Nat) (s1 : IctxState)
    (h : refreshTail env s snapc names sizes parents prots flagsL = (0, s1)) :
    s1.lastRefresh = env.refreshSeq := by
  simp only [refreshTail] at h
  split_ifs at h with h1 h2 h3
  · obtain ⟨h0, -⟩ := Prod.mk.injEq .. ▸ h
    omega
  · obtain ⟨h0, -⟩ := Prod.mk.injEq .. ▸ h
    simp [eio] at h0
  · obtain ⟨-, hE⟩ := Prod.mk.injEq .. ▸ h
    subst hE
    rfl
  · obtain ⟨-, hE⟩ := Prod.mk.injEq .. ▸ h
    subst hE
    rfl


/-- A fail outcome of the flags step carries the raw get_flags error,
which is none of the specially handled codes. -/
theorem flagsStep_fail_code (env : RefreshEnv) (md : MutableMd) (e : Int)
    (h : flagsStep env md = .fail e) : env.flagsR = .error e := by
  rcases hf : env.flagsR with e0 | pr
  · by_cases h1 : e0 = -eopnotsupp ∨ e0 = -eio
    · rcases h1 with h1 | h1 <;> subst h1 <;>
        simp [flagsStep, hf, enoent, eopnotsupp, eio] at h
    · by_cases h2 : e0 = -enoent
      · simp [flagsStep, hf, h1, h2, enoent, eopnotsupp, eio] at h
      · simp [flagsStep, hf, h1, h2] at h
        simp [hf, h]
  · exfalso
    obtain ⟨fl, sf⟩ := pr
    simp [flagsStep, hf] at h

/-- The new-format read loop, on success, is idempotent: re-running it
from its own output state returns the same state; it also preserves the
device format and leaves the observed generation at the target. -/
theorem refreshNewLoop_idem (env : RefreshEnv)
    (w3 : ∀ e, env.mutableMdR = .error e → e < 0)
    (w4 : ∀ e, env.flagsR = .error e → e < 0)
    (w5 : ∀ e, env.snapListR = .error e → e < 0)
    (hpn : ∀ pid e, env.parentEnv.poolName pid = .error e → e < 0)
    (hoi : ∀ e, env.parentEnv.openImageR = .error e → e < 0)
    (hsn : ∀ sid e, env.parentEnv.parentSnapName sid = .error e → e < 0) :
    ∀ (fuel : Nat) (s s1 : IctxState),
      refreshNewLoop env s fuel = some (0, s1) →
      refreshNewLoop env s1 fuel = some (0, s1) ∧ s1.oldFormat = s.oldFormat ∧
        s1.lastRefresh = env.refreshSeq := by
  intro fuel
  induction fuel with
  | zero =>
    intro s s1 h
    simp [refreshNewLoop] at h
  | succ n ih =>
    intro s s1 h
    rcases hmd : env.mutableMdR with e | md
    · exfalso
      have := w3 e hmd
      simp [refreshNewLoop, hmd] at h
      omega
    · by_cases hinc : Nat.land md.incompatible RBD_FEATURES_INCOMPATIBLE_MASK = 0
      · rcases hfs : flagsStep env md with _ | e | ⟨fl, sfl⟩
        · simp [refreshNewLoop, hmd, hinc, hfs] at h
          obtain ⟨h2, hfmt, hlast⟩ := ih s s1 h
          refine ⟨?_, hfmt, hlast⟩
          simpa [refreshNewLoop, hmd, hinc, hfs] using h2
        · exfalso
          have he := w4 e (flagsStep_fail_code env md e hfs)
          simp [refreshNewLoop, hmd, hinc, hfs] at h
          omega
        · rcases hsl : env.snapListR with e | quad
          · by_cases hee : e = -enoent
            · subst hee
              simp [refreshNewLoop, hmd, hinc, hfs, hsl] at h
              obtain ⟨h2, hfmt, hlast⟩ := ih s s1 h
              refine ⟨?_, hfmt, hlast⟩
              simpa [refreshNewLoop, hmd, hinc, hfs, hsl] using h2
            · exfalso
              have he := w5 e hsl
              simp [refreshNewLoop, hmd, hinc, hfs, hsl, hee] at h
              omega
          · obtain ⟨names, sizes, parents, prots⟩ := quad
            have h' : refreshTail env
                {s with size := md.size, features := md.features, lockers := md.lockers,
                        exclusiveLocked := md.exclusiveLocked, lockTag := md.lockTag,
                        parentMd := md.parentMd, flags := fl}
                md.snapc names sizes parents prots sfl = (0, s1) := by
              simpa [refreshNewLoop, hmd, hinc, hfs, hsl] using h
            have hidem := refreshTail_idem env _ md.snapc names sizes parents prots
              sfl s1 hpn hoi hsn h'
            obtain ⟨f1, f2, f3, f4, f5, f6, f7, f8, f9, f10, f11, f12, f13⟩ :=
              refreshTail_fields env _ md.snapc names sizes parents prots sfl 0 s1 h'
            simp at f1 f5 f8 f9 f10 f11 f12 f13
            have hlast := refreshTail_lastRefresh env _ md.snapc names sizes parents
              prots sfl s1 h'
            have hS :
                ({s1 with size := md.size, features := md.features,
                          lockers := md.lockers, exclusiveLocked := md.exclusiveLocked,
                          lockTag := md.lockTag, parentMd := md.parentMd,
                          flags := fl} : IctxState) = s1 := by
              rw [← f5, ← f8, ← f9, ← f10, ← f11, ← f12, ← f13]
            refine ⟨?_, f1, hlast⟩
            simp only [refreshNewLoop, hmd, hfs, hsl]
            rw [if_neg (by simpa using hinc)]
            rw [hS]
            rw [hidem]
      · exfalso
        simp [refreshNewLoop, hmd, hinc, enosys] at h

/-- C6: refresh is idempotent: a second full refresh from the state a
successful refresh produced, with no intervening change to the shared
header record (the same read results), succeeds and leaves the Device
Handle state — Snapshot Table, Parent Linkage, flags and all — exactly
as after the first run; and the staleness-gated ictx_check is then a
redundant no-op returning success without touching the handle. -/
theorem c6_refresh_idempotent (env : RefreshEnv) (fuel : Nat) (s s1 : IctxState)
    (hwf : env.wf) (h : ictx_refresh env fuel s = some (0, s1)) :
    ictx_refresh env fuel s1 = some (0, s1) ∧ ictx_check env fuel s1 = some (0, s1) := by
  obtain ⟨w1, w2, w3, w4, w5, w6, w7, w8⟩ := hwf
  have key : ictx_refresh env fuel s1 = some (0, s1) ∧
      s1.lastRefresh = env.refreshSeq := by
    by_cases hfmt : s.oldFormat
    · rcases hoh : env.oldHeaderR with e | hdr
      · exfalso
        have := w1 e hoh
        simp [ictx_refresh, hfmt, hoh] at h
        omega
      · rcases hosl : env.oldSnapListR with e | trip
        · exfalso
          have := w2 e hosl
          simp [ictx_refresh, hfmt, hoh, hosl] at h
          omega
        · obtain ⟨names, sizes, snapc⟩ := trip
          by_cases hlk : env.lockInfoR < 0 ∧ env.lockInfoR ≠ -eopnotsupp ∧
              env.lockInfoR ≠ -eio
          · exfalso
            simp [ictx_refresh, hfmt, hoh, hosl, hlk] at h
            omega
          · by_cases hge : env.lockInfoR ≥ 0
            · have h' : refreshTail env
                  {s with lockers := env.oldLockers, lockTag := env.oldLockTag,
                          exclusiveLocked := env.oldLockExclusive, order := hdr.order,
                          size := hdr.imageSize, objectPrefix := hdr.blockName}
                  snapc names sizes [] [] [] = (0, s1) := by
                simpa [ictx_refresh, hfmt, hoh, hosl, hlk, hge] using h
              have hidem := refreshTail_idem env _ snapc names sizes [] [] [] s1
                w6 w7 w8 h'
              obtain ⟨f1, f2, f3, f4, f5, f6, f7, f8, f9, f10, f11, f12, f13⟩ :=
                refreshTail_fields env _ snapc names sizes [] [] [] 0 s1 h'
              simp at f1 f5 f6 f7 f10 f11 f12
              have hlast := refreshTail_lastRefresh env _ snapc names sizes [] [] [] s1 h'
              have hfmt1 : s1.oldFormat = true := by
                rw [f1]
                exact hfmt
              have hS :
                  ({s1 with oldFormat := true, lockers := env.oldLockers,
                            lockTag := env.oldLockTag,
                            exclusiveLocked := env.oldLockExclusive, order := hdr.order,
                            size := hdr.imageSize,
                            objectPrefix := hdr.blockName} : IctxState) = s1 := by
                rw [← f5, ← f6, ← f7, ← f10, ← f11, ← f12, ← hfmt1]
              refine ⟨?_, hlast⟩
              simp only [ictx_refresh, hfmt1, hoh, hosl, if_true]
              rw [if_neg hlk, if_pos hge, hS, hidem]
            · have h' : refreshTail env
                  {s with lockers := ([] : List String), exclusiveLocked := false,
                          order := hdr.order, size := hdr.imageSize,
                          objectPrefix := hdr.blockName}
                  snapc names sizes [] [] [] = (0, s1) := by
                simpa [ictx_refresh, hfmt, hoh, hosl, hlk, hge] using h
              have hidem := refreshTail_idem env _ snapc names sizes [] [] [] s1
                w6 w7 w8 h'
              obtain ⟨f1, f2, f3, f4, f5, f6, f7, f8, f9, f10, f11, f12, f13⟩ :=
                refreshTail_fields env _ snapc names sizes [] [] [] 0 s1 h'
              simp at f1 f5 f6 f7 f10 f11 f12
              have hlast := refreshTail_lastRefresh env _ snapc names sizes [] [] [] s1 h'
              have hfmt1 : s1.oldFormat = true := by
                rw [f1]
                exact hfmt
              have hS :
                  ({s1 with oldFormat := true, lockers := ([] : List String),
                            exclusiveLocked := false,
                            order := hdr.order, size := hdr.imageSize,
                            objectPrefix := hdr.blockName} : IctxState) = s1 := by
                rw [← f5, ← f6, ← f7, ← f10, ← f11, ← hfmt1]
              refine ⟨?_, hlast⟩
              simp only [ictx_refresh, hfmt1, hoh, hosl, if_true]
              rw [if_neg hlk, if_neg hge, hS, hidem]
    · have h' : refreshNewLoop env s fuel = some (0, s1) := by
        simpa [ictx_refresh, hfmt] using h
      obtain ⟨h2, hfmt1, hlast⟩ := refreshNewLoop_idem env w3 w4 w5 w6 w7 w8 fuel s s1 h'
      refine ⟨?_, hlast⟩
      have hfmt2 : s1.oldFormat = false := by
        rw [hfmt1]
        simpa using hfmt
      simp [ictx_refresh, hfmt2]
      exact h2
  obtain ⟨hmain, hlast⟩ := key
  refine ⟨hmain, ?_⟩
  simp [ictx_check, hlast]

/-- Environment for snap_rollback: results of the metadata check, the
lock preparation, the lock-support and ownership observations, the cache
invalidation, the awaited resize to the snapshot's size, and the
per-object rollback pass. -/
structure RollbackEnv where
  checkR : Int
  prepR : Int
  lockSupported : Bool
  lockOwner : Bool
  invalidateR : Int
  resizeWaitR : Int
  rollbackImageR : Int

/-- The embedding of snap_rollback (internal.cc lines 2359-2438): after
the metadata check, a view marked no-longer-existing fails with
NotFound; a snapshot view or read-only handle fails with ReadOnly; a
missing name fails with NotFound; then lock preparation, ownership,
cache invalidation, the resize and the per-object rollback run in
order, each failure propagating. -/
def snap_rollback (renv : RollbackEnv) (s : IctxState) (nm : String) : Int :=
  if renv.checkR < 0 then renv.checkR
  else if !s.snapExists then -enoent
  else if s.snapId ≠ CEPH_NOSNAP ∨ s.readOnly = true then -erofs
  else
    match lookupName s.snapInfo nm with
    | none => -enoent
    | some _ =>
      if renv.prepR < 0 then -erofs
      else if renv.lockSupported ∧ ¬renv.lockOwner then -erofs
      else if renv.invalidateR < 0 then renv.invalidateR
      else if renv.resizeWaitR < 0 then renv.resizeWaitR
      else renv.rollbackImageR

/-- A successful refresh tail on a state whose selected view's name no
longer resolves to its recorded id leaves the view marked as no longer
existing. -/
theorem refreshTail_marks (env : RefreshEnv) (s : IctxState) (snapc : SnapCtx)
    (names : List String) (sizes : List Nat) (parents : List ParentInfo)
    (prots : List ProtStatus) (flagsL : List Nat) (s1 : IctxState)
    (h : refreshTail env s snapc names sizes parents prots flagsL = (0, s1))
    (hsnap : s1.snapId ≠ CEPH_NOSNAP)
    (hname : lookupName s1.snapInfo s1.snapName ≠ some s1.snapId) :
    s1.snapExists = false := by
  simp only [refreshTail] at h
  split_ifs at h with h1 h2 h3
  · obtain ⟨h0, -⟩ := Prod.mk.injEq .. ▸ h
    omega
  · obtain ⟨h0, -⟩ := Prod.mk.injEq .. ▸ h
    simp [eio] at h0
  · obtain ⟨-, hE⟩ := Prod.mk.injEq .. ▸ h
    subst hE
    rfl
  · obtain ⟨-, hE⟩ := Prod.mk.injEq .. ▸ h
    subst hE
    exfalso
    apply h3
    constructor
    · simpa using hsnap
    · simpa using hname

/-- A successful new-format read always produces its final state through
the common refresh tail. -/
theorem refreshNewLoop_through_tail (env : RefreshEnv)
    (w3 : ∀ e, env.mutableMdR = .error e → e < 0)
    (w4 : ∀ e, env.flagsR = .error e → e < 0)
    (w5 : ∀ e, env.snapListR = .error e → e < 0) :
    ∀ (fuel : Nat) (s s1 : IctxState), refreshNewLoop env s fuel = some (0, s1) →
      ∃ s2 snapc names sizes parents prots flagsL,
        refreshTail env s2 snapc names sizes parents prots flagsL = (0, s1) := by
  intro fuel
  induction fuel with
  | zero =>
    intro s s1 h
    simp [refreshNewLoop] at h
  | succ n ih =>
    intro s s1 h
    rcases hmd : env.mutableMdR with e | md
    · exfalso
      have := w3 e hmd
      simp [refreshNewLoop, hmd] at h
      omega
    · by_cases hinc : Nat.land md.incompatible RBD_FEATURES_INCOMPATIBLE_MASK = 0
      · rcases hfs : flagsStep env md with _ | e | ⟨fl, sfl⟩
        · simp [refreshNewLoop, hmd, hinc, hfs] at h
          exact ih s s1 h
        · exfalso
          have := w4 e (flagsStep_fail_code env md e hfs)
          simp [refreshNewLoop, hmd, hinc, hfs] at h
          omega
        · rcases hsl : env.snapListR with e | quad
          · by_cases hee : e = -enoent
            · subst hee
              simp [refreshNewLoop, hmd, hinc, hfs, hsl] at h
              exact ih s s1 h
            · exfalso
              have := w5 e hsl
              simp [refreshNewLoop, hmd, hinc, hfs, hsl, hee] at h
              omega
          · obtain ⟨names, sizes, parents, prots⟩ := quad
            refine ⟨{s with size := md.size, features := md.features,
                            lockers := md.lockers,
                            exclusiveLocked := md.exclusiveLocked,
                            lockTag := md.lockTag, parentMd := md.parentMd,
                            flags := fl},
              md.snapc, names, sizes, parents, prots, sfl, ?_⟩
            simpa [refreshNewLoop, hmd, hinc, hfs, hsl] using h
      · exfalso
        simp [refreshNewLoop, hmd, hinc, enosys] at h

/-- A successful full refresh always produces its final state through
the common refresh tail. -/
theorem ictx_refresh_through_tail (env : RefreshEnv) (fuel : Nat) (s s1 : IctxState)
    (w1 : ∀ e, env.oldHeaderR = .error e → e < 0)
    (w2 : ∀ e, env.oldSnapListR = .error e → e < 0)
    (w3 : ∀ e, env.mutableMdR = .error e → e < 0)
    (w4 : ∀ e, env.flagsR = .error e → e < 0)
    (w5 : ∀ e, env.snapListR = .error e → e < 0)
    (h : ictx_refresh env fuel s = some (0, s1)) :
    ∃ s2 snapc names sizes parents prots flagsL,
      refreshTail env s2 snapc names sizes parents prots flagsL = (0, s1) := by
  by_cases hfmt : s.oldFormat
  · rcases hoh : env.oldHeaderR with e | hdr
    · exfalso
      have := w1 e hoh
      simp [ictx_refresh, hfmt, hoh] at h
      omega
    · rcases hosl : env.oldSnapListR with e | trip
      · exfalso
        have := w2 e hosl
        simp [ictx_refresh, hfmt, hoh, hosl] at h
        omega
      · obtain ⟨names, sizes, snapc⟩ := trip
        by_cases hlk : env.lockInfoR < 0 ∧ env.lockInfoR ≠ -eopnotsupp ∧
            env.lockInfoR ≠ -eio
        · exfalso
          simp [ictx_refresh, hfmt, hoh, hosl, hlk] at h
          omega
        · by_cases hge : env.lockInfoR ≥ 0
          · refine ⟨{s with lockers := env.oldLockers, lockTag := env.oldLockTag,
                            exclusiveLocked := env.oldLockExclusive,
                            order := hdr.order, size := hdr.imageSize,
                            objectPrefix := hdr.blockName},
              snapc, names, sizes, [], [], [], ?_⟩
            simpa [ictx_refresh, hfmt, hoh, hosl, hlk, hge] using h
          · refine ⟨{s with lockers := ([] : List String),
                            exclusiveLocked := false, order := hdr.order,
                            size := hdr.imageSize,
                            objectPrefix := hdr.blockName},
              snapc, names, sizes, [], [], [], ?_⟩
            simpa [ictx_refresh, hfmt, hoh, hosl, hlk, hge] using h
  · have h' : refreshNewLoop env s fuel = some (0, s1) := by
      simpa [ictx_refresh, hfmt] using h
    exact refreshNewLoop_through_tail env w3 w4 w5 fuel s s1 h'

/-- C8: when a refresh performed while a snapshot view is selected finds
that the view's name no longer resolves to the id recorded at selection,
the view is marked as no longer existing, and a subsequent rollback on
that handle fails with NotFound before acting on different data. -/
theorem c8_stale_view_marked (env : RefreshEnv) (fuel : Nat) (s s1 : IctxState)
    (renv : RollbackEnv) (nm : String) (hwf : env.wf)
    (h : ictx_refresh env fuel s = some (0, s1))
    (hsnap : s1.snapId ≠ CEPH_NOSNAP)
    (hname : lookupName s1.snapInfo s1.snapName ≠ some s1.snapId)
    (hchk : renv.checkR = 0) :
    s1.snapExists = false ∧ snap_rollback renv s1 nm = -enoent := by
  obtain ⟨w1, w2, w3, w4, w5, w6, w7, w8⟩ := hwf
  obtain ⟨s2, snapc, names, sizes, parents, prots, flagsL, ht⟩ :=
    ictx_refresh_through_tail env fuel s s1 w1 w2 w3 w4 w5 h
  have hmark := refreshTail_marks env s2 snapc names sizes parents prots flagsL s1
    ht hsnap hname
  refine ⟨hmark, ?_⟩
  simp [snap_rollback, hchk, hmark]

/-- Concrete mutable-metadata read: one snapshot, no parent, no
incompatible features. -/
def cMdF : MutableMd := ⟨1024, 0, 0, [], false, "", ⟨7, [5]⟩, ⟨⟨-1, "", 0⟩, 0⟩⟩

/-- Concrete refresh environment whose reads all succeed. -/
def cREnvF : RefreshEnv :=
  ⟨42, .ok ⟨0, 0, ""⟩, .ok ([], [], ⟨0, []⟩), 0, [], "", false, .ok cMdF,
    .ok (0, [0]), .ok (["s1"], [100], [⟨⟨-1, "", 0⟩, 0⟩], [.unprotected]), cEnvA⟩

/-- The concrete refresh environment is well formed: every read
succeeds, so no failing call reports a non-negative code. -/
theorem cREnvF_wf : cREnvF.wf := by
  refine ⟨?_, ?_, ?_, ?_, ?_, ?_, ?_, ?_⟩
  · intro e he
    simp [cREnvF] at he
  · intro e he
    simp [cREnvF] at he
  · intro e he
    simp [cREnvF] at he
  · intro e he
    simp [cREnvF] at he
  · intro e he
    simp [cREnvF] at he
  · intro pid e he
    simp [cREnvF, cEnvA] at he
  · intro e he
    simp [cREnvF, cEnvA] at he
  · intro sid e he
    simp [cREnvF, cEnvA] at he

/-- Concrete pre-refresh handle state on the live view. -/
def cStateF : IctxState :=
  ⟨false, false, CEPH_NOSNAP, "", true, 0, 22, "", 0, 0, [], [], ⟨0, []⟩,
    ⟨⟨-1, "", 0⟩, 0⟩, none, [], false, "", 0⟩

/-- The handle state the concrete refresh produces. -/
def cStateF1 : IctxState :=
  ⟨false, false, CEPH_NOSNAP, "", true, 1024, 22, "", 0, 0, [5],
    [(5, ⟨"s1", 100, ⟨⟨-1, "", 0⟩, 0⟩, .unprotected, 0⟩)], ⟨7, [5]⟩,
    ⟨⟨-1, "", 0⟩, 0⟩, none, [], false, "", 42⟩

/-- C6 witness: the idempotency theorem applied at a concrete refresh. -/
theorem c6_refresh_witness :
    ictx_refresh cREnvF 1 cStateF1 = some (0, cStateF1) ∧
    ictx_check cREnvF 1 cStateF1 = some (0, cStateF1) :=
  c6_refresh_idempotent cREnvF 1 cStateF cStateF1 cREnvF_wf (by decide)

/-- Concrete pre-refresh handle state with a selected snapshot view
whose name no longer appears in the header data. -/
def cStateG : IctxState :=
  ⟨false, false, 5, "gone", true, 0, 22, "", 0, 0, [], [], ⟨0, []⟩,
    ⟨⟨-1, "", 0⟩, 0⟩, none, [], false, "", 0⟩

/-- The handle state the concrete refresh produces from cStateG: the
view is marked as no longer existing. -/
def cStateG1 : IctxState :=
  ⟨false, false, 5, "gone", false, 1024, 22, "", 0, 0, [5],
    [(5, ⟨"s1", 100, ⟨⟨-1, "", 0⟩, 0⟩, .unprotected, 0⟩)], ⟨7, [5]⟩,
    ⟨⟨-1, "", 0⟩, 0⟩, none, [], false, "", 42⟩

/-- C8 witness: the stale-view theorem applied at a concrete refresh of
a handle whose selected snapshot was deleted remotely. -/
theorem c8_stale_view_witness :
    cStateG1.snapExists = false ∧
    snap_rollback ⟨0, 0, false, false, 0, 0, 0⟩ cStateG1 "gone" = -enoent :=
  c8_stale_view_marked cREnvF 1 cStateG cStateG1 ⟨0, 0, false, false, 0, 0, 0⟩
    "gone" cREnvF_wf (by decide) (by decide) (by decide) rfl

/-- Events of the exclusive-lock coordinator over the topology/ownership
guard (owner_lock) and the peer channel: read/write acquires and
releases of the guard, observations of lock support and lock ownership,
a remote forward with its result, and the dispatch of the local
handler. -/
inductive LockEv where
  | acqR
  | relR
  | acqW
  | relW
  | obsSup (b : Bool)
  | obsOwn (b : Bool)
  | fwd (r : Int)
  | disp
deriving DecidableEq, Repr

/-- Watcher and peer oracle: the answer each successive query receives,
per query stream. -/
structure WEnv where
  supported : Nat → Bool
  owner : Nat → Bool
  tryLockR : Nat → Int
  remoteR : Nat → Int
  localR : Nat → Int
  waitR : Nat → Int

/-- Query counters, one per oracle stream. -/
structure WSt where
  sup : Nat
  ow : Nat
  tl : Nat
  rm : Nat
  lc : Nat
  wt : Nat
deriving DecidableEq, Repr

/-- The embedding of prepare_image_update (internal.cc lines 107-134),
called with the topology guard held in read mode: no watcher means
ReadOnly; a device without lock support, or an already-owning client,
returns at once; otherwise the guard is released, reacquired in write
mode, ownership double-checked (the optimistic-upgrade revalidation),
try_lock attempted when still not owner, and the guard downgraded back
to read mode. Returns the result, the advanced counters and the event
trace. -/
def prepare_image_update (e : WEnv) (hasW : Bool) (s : WSt) : Int × WSt × List LockEv :=
  if !hasW then (-erofs, s, [])
  else
    let b1 := e.supported s.sup
    let s1 := {s with sup := s.sup + 1}
    if !b1 then (0, s1, [.obsSup b1])
    else
      let o1 := e.owner s1.ow
      let s2 := {s1 with ow := s1.ow + 1}
      if o1 then (0, s2, [.obsSup b1, .obsOwn o1])
      else
        let o2 := e.owner s2.ow
        let s3 := {s2 with ow := s2.ow + 1}
        if o2 then
          (0, s3, [.obsSup b1, .obsOwn o1, .relR, .acqW, .obsOwn o2, .relW, .acqR])
        else
          let r := e.tryLockR s3.tl
          let s4 := {s3 with tl := s3.tl + 1}
          let o3 := e.owner s4.ow
          let s5 := {s4 with ow := s4.ow + 1}
          (r, s5, [.obsSup b1, .obsOwn o1, .relR, .acqW, .obsOwn o2, .obsOwn o3,
                   .relW, .acqR])

/-- Outcome of the coordinator's inner acquire-or-forward loop. -/
inductive InnerRes where
  | toDispatch
  | retErofs
  | retRemote (r : Int)
  | fuelOut
deriving DecidableEq, Repr

/-- The inner while loop of invoke_async_request (internal.cc lines
153-167): while the device's lock semantics are supported, prepare the
update (failing with ReadOnly on a preparation error), break to the
dispatch once ownership is observed, and otherwise forward the request
to the owner — a Timeout or Restart forward result loops, anything else
is returned as the remote peer's answer. -/
def innerLoop (e : WEnv) (hasW : Bool) : Nat → WSt → InnerRes × WSt × List LockEv
  | 0, s => (.fuelOut, s, [])
  | g + 1, s =>
    let b := e.supported s.sup
    let s1 := {s with sup := s.sup + 1}
    if !b then (.toDispatch, s1, [.obsSup b])
    else
      match prepare_image_update e hasW s1 with
      | (r, s2, t2) =>
        if r < 0 then (.retErofs, s2, .obsSup b :: t2)
        else
          let o := e.owner s2.ow
          let s3 := {s2 with ow := s2.ow + 1}
          if o then (.toDispatch, s3, .obsSup b :: t2 ++ [.obsOwn o])
          else
            let rr := e.remoteR s3.rm
            let s4 := {s3 with rm := s3.rm + 1}
            if rr ≠ -etimedout ∧ rr ≠ -erestart then
              (.retRemote rr, s4, .obsSup b :: t2 ++ [.obsOwn o, .fwd rr])
            else
              match innerLoop e hasW g s4 with
              | (res, s5, t5) =>
                (res, s5, .obsSup b :: t2 ++ [.obsOwn o, .fwd rr] ++ t5)

/-- Outcome of the coordinator, tagged with the return site: the
read-only rejection, the synchronous dispatch failure, the remote
peer's answer, the awaited local completion, or fuel exhaustion. -/
inductive InvokeRes where
  | erofs
  | fromDispatch (r : Int)
  | fromRemote (r : Int)
  | fromWait (r : Int)
  | fuelOut
deriving DecidableEq, Repr

/-- The embedding of invoke_async_request (internal.cc lines 136-182):
under a read hold of the topology guard, reject read-only devices and
non-permitted snapshot views, run the inner acquire-or-forward loop,
dispatch the local handler still under the guard (a negative synchronous
dispatch result is returned as is), release the guard, await the
handler's outcome, and restart the whole sequence when the outcome is
Restart. -/
def invoke_async_request (e : WEnv) (hasW readOnly permitSnap snapActive : Bool) :
    Nat → Nat → WSt → InvokeRes × List LockEv
  | 0, _, _ => (.fuelOut, [])
  | f + 1, g, s =>
    if readOnly || (!permitSnap && snapActive) then (.erofs, [.acqR, .relR])
    else
      match innerLoop e hasW g s with
      | (res, s2, t) =>
        match res with
        | .fuelOut => (.fuelOut, .acqR :: t)
        | .retErofs => (.erofs, .acqR :: t ++ [.relR])
        | .retRemote r => (.fromRemote r, .acqR :: t ++ [.relR])
        | .toDispatch =>
          let lr := e.localR s2.lc
          let s3 := {s2 with lc := s2.lc + 1}
          if lr < 0 then (.fromDispatch lr, .acqR :: t ++ [.disp, .relR])
          else
            let w := e.waitR s3.wt
            let s4 := {s3 with wt := s3.wt + 1}
            if w = -erestart then
              match invoke_async_request e hasW readOnly permitSnap snapActive f g s4 with
              | (res2, t2) => (res2, .acqR :: t ++ [.disp, .relR] ++ t2)
            else (.fromWait w, .acqR :: t ++ [.disp, .relR])

/-- Lock-audit state folded over a trace: current hold depth of the
topology guard and whether ownership has been observed true since the
last release of the guard. -/
structure TSt where
  depth : Nat
  ownObs : Bool
deriving DecidableEq, Repr

/-- One audit step: acquires deepen the hold, releases shallow it and
forget the ownership observation, an ownership observation records its
value. -/
def tstep (t : TSt) : LockEv → TSt
  | .acqR => {t with depth := t.depth + 1}
  | .relR => ⟨t.depth - 1, false⟩
  | .acqW => {t with depth := t.depth + 1}
  | .relW => ⟨t.depth - 1, false⟩
  | .obsSup _ => t
  | .obsOwn b => {t with ownObs := b}
  | .fwd _ => t
  | .disp => t

/-- Fold the audit over a trace. -/
def foldT (t : TSt) (l : List LockEv) : TSt := l.foldl tstep t

/-- The audit check: every dispatch of the local handler happens with
the guard held and with ownership observed true since the last
release. -/
def dispOkB (t : TSt) : List LockEv → Bool
  | [] => true
  | e :: rest =>
    (if e = .disp then decide (0 < t.depth) && t.ownObs else true) &&
      dispOkB (tstep t e) rest

/-- The forward results recorded in a trace, in order. -/
def fwdVals : List LockEv → List Int
  | [] => []
  | .fwd r :: rest => r :: fwdVals rest
  | _ :: rest => fwdVals rest

/-- The audit check distributes over trace concatenation. -/
theorem dispOkB_append (l1 : List LockEv) : ∀ (t : TSt) (l2 : List LockEv),
    dispOkB t (l1 ++ l2) = (dispOkB t l1 && dispOkB (foldT t l1) l2) := by
  induction l1 with
  | nil =>
    intro t l2
    simp [dispOkB, foldT]
  | cons e l ih =>
    intro t l2
    simp only [List.cons_append, dispOkB, foldT, List.foldl_cons, List.append_eq]
    rw [ih (tstep t e) l2]
    simp only [foldT, Bool.and_assoc]

/-- A trace without a dispatch passes the audit from any state. -/
theorem dispOkB_of_not_mem (l : List LockEv) : ∀ (t : TSt), LockEv.disp ∉ l →
    dispOkB t l = true := by
  induction l with
  | nil =>
    intro t _
    rfl
  | cons e rest ih =>
    intro t h
    rw [List.mem_cons] at h
    push_neg at h
    obtain ⟨h1, h2⟩ := h
    have h1' : ¬ e = LockEv.disp := fun hh => h1 hh.symm
    simp [dispOkB, h1']
    exact ih (tstep t e) h2

/-- Forward values distribute over trace concatenation. -/
theorem fwdVals_append (l1 : List LockEv) : ∀ l2 : List LockEv,
    fwdVals (l1 ++ l2) = fwdVals l1 ++ fwdVals l2 := by
  induction l1 with
  | nil =>
    intro l2
    simp [fwdVals]
  | cons e l ih =>
    intro l2
    cases e <;> simp [fwdVals, ih]

/-- The preparation step never dispatches the handler. -/
theorem prepare_no_disp (e : WEnv) (hasW : Bool) (s : WSt) :
    LockEv.disp ∉ (prepare_image_update e hasW s).2.2 := by
  unfold prepare_image_update
  by_cases h1 : hasW <;> by_cases h2 : e.supported s.sup <;>
    by_cases h3 : e.owner s.ow <;> by_cases h4 : e.owner (s.ow + 1) <;>
      simp [h1, h2, h3, h4]

/-- The preparation step never forwards the request. -/
theorem prepare_no_fwd (e : WEnv) (hasW : Bool) (s : WSt) :
    fwdVals (prepare_image_update e hasW s).2.2 = [] := by
  unfold prepare_image_update
  by_cases h1 : hasW <;> by_cases h2 : e.supported s.sup <;>
    by_cases h3 : e.owner s.ow <;> by_cases h4 : e.owner (s.ow + 1) <;>
      simp [h1, h2, h3, h4, fwdVals]

/-- The preparation step leaves the guard at its entry depth (its
release/write-upgrade/downgrade/reacquire sequence is balanced). -/
theorem prepare_depth (e : WEnv) (hasW : Bool) (s : WSt) (t : TSt) (hd : 0 < t.depth) :
    (foldT t (prepare_image_update e hasW s).2.2).depth = t.depth := by
  unfold prepare_image_update
  by_cases h1 : hasW <;> by_cases h2 : e.supported s.sup <;>
    by_cases h3 : e.owner s.ow <;> by_cases h4 : e.owner (s.ow + 1) <;>
      simp [h1, h2, h3, h4, foldT, tstep] <;> omega

/-- The inner acquire-or-forward loop never dispatches the handler
itself. -/
theorem inner_no_disp (e : WEnv) (hasW : Bool) : ∀ (g : Nat) (s : WSt),
    LockEv.disp ∉ (innerLoop e hasW g s).2.2 := by
  intro g
  induction g with
  | zero =>
    intro s
    simp [innerLoop]
  | succ n ih =>
    intro s
    by_cases hb : e.supported s.sup
    · rcases hp : prepare_image_update e hasW {s with sup := s.sup + 1} with ⟨r, s2, t2⟩
      have hnd : LockEv.disp ∉ t2 := by
        have hh := prepare_no_disp e hasW {s with sup := s.sup + 1}
        rw [hp] at hh
        exact hh
      by_cases hr : r < 0
      · simp [innerLoop, hb, hp, hr, hnd]
      · by_cases ho : e.owner s2.ow
        · simp [innerLoop, hb, hp, hr, ho, hnd]
        · by_cases hrr : e.remoteR s2.rm ≠ -etimedout ∧ e.remoteR s2.rm ≠ -erestart
          · simp [innerLoop, hb, hp, hr, ho, hrr, hnd]
          · rcases hin : innerLoop e hasW n
                {s2 with ow := s2.ow + 1, rm := s2.rm + 1} with ⟨res5, s5, t5⟩
            have hnd5 : LockEv.disp ∉ t5 := by
              have hh := ih {s2 with ow := s2.ow + 1, rm := s2.rm + 1}
              rw [hin] at hh
              exact hh
            simp [innerLoop, hb, hp, hr, ho, hrr, hin, hnd, hnd5]
    · simp [innerLoop, hb]

/-- On a device whose lock semantics stay supported, the inner loop
reaches the dispatch only with the guard at its entry depth and with
ownership observed true after the last release. -/
theorem inner_dispatch_fold (e : WEnv) (hasW : Bool)
    (hSup : ∀ n, e.supported n = true) : ∀ (g : Nat) (s : WSt) (t : TSt), 0 < t.depth →
    (innerLoop e hasW g s).1 = .toDispatch →
    (foldT t (innerLoop e hasW g s).2.2).depth = t.depth ∧
    (foldT t (innerLoop e hasW g s).2.2).ownObs = true := by
  intro g
  induction g with
  | zero =>
    intro s t hd hres
    simp [innerLoop] at hres
  | succ n ih =>
    intro s t hd hres
    have hb : e.supported s.sup = true := hSup s.sup
    rcases hp : prepare_image_update e hasW {s with sup := s.sup + 1} with ⟨r, s2, t2⟩
    have hdep : ∀ u : TSt, 0 < u.depth → (foldT u t2).depth = u.depth := by
      intro u hu
      have hh := prepare_depth e hasW {s with sup := s.sup + 1} u hu
      rw [hp] at hh
      exact hh
    by_cases hr : r < 0
    · exfalso
      simp [innerLoop, hb, hp, hr] at hres
    · by_cases ho : e.owner s2.ow
      · refine ⟨?_, ?_⟩ <;>
          simp [innerLoop, hb, hp, hr, ho, foldT, List.foldl_append, tstep] <;>
          simpa [foldT, tstep] using hdep t hd
      · by_cases hrr : e.remoteR s2.rm ≠ -etimedout ∧ e.remoteR s2.rm ≠ -erestart
        · exfalso
          simp [innerLoop, hb, hp, hr, ho, hrr] at hres
        · rcases hin : innerLoop e hasW n
              {s2 with ow := s2.ow + 1, rm := s2.rm + 1} with ⟨res5, s5, t5⟩
          have hres5 : res5 = .toDispatch := by
            simp [innerLoop, hb, hp, hr, ho, hrr, hin] at hres
            exact hres
          have hmid : (foldT t (LockEv.obsSup true :: t2 ++
              [LockEv.obsOwn false, LockEv.fwd (e.remoteR s2.rm)])).depth = t.depth := by
            simp [foldT, List.foldl_append, tstep]
            simpa [foldT, tstep] using hdep t hd
          have hih := ih {s2 with ow := s2.ow + 1, rm := s2.rm + 1}
            (foldT t (LockEv.obsSup true :: t2 ++
              [LockEv.obsOwn false, LockEv.fwd (e.remoteR s2.rm)]))
            (by rw [hmid]; exact hd) (by rw [hin]; exact hres5)
          rw [hin] at hih
          obtain ⟨hih1, hih2⟩ := hih
          simp only [foldT, List.cons_append, List.foldl_cons, List.foldl_append,
            tstep] at hih1 hih2 hmid
          constructor
          · simp [innerLoop, hb, hp, hr, ho, hrr, hin, foldT, List.foldl_append, tstep]
            exact hih1.trans hmid
          · simp [innerLoop, hb, hp, hr, ho, hrr, hin, foldT, List.foldl_append, tstep]
            exact hih2

/-- C1: on a device whose lock semantics are supported throughout, every
dispatch of the local handler by the Exclusive Lock Coordinator happens
with the topology/ownership guard held in read mode and with the client
having observed itself as lock owner since the guard was last released —
the guard is not released between the ownership check and the
dispatch. -/
theorem c1_dispatch_under_guard (e : WEnv) (hasW ro ps sa : Bool)
    (hSup : ∀ n, e.supported n = true) :
    ∀ (f g : Nat) (s : WSt),
    dispOkB ⟨0, false⟩ (invoke_async_request e hasW ro ps sa f g s).2 = true := by
  intro f
  induction f with
  | zero =>
    intro g s
    simp [invoke_async_request, dispOkB]
  | succ n ih =>
    intro g s
    by_cases hro : (ro || (!ps && sa)) = true
    · simp [invoke_async_request, hro, dispOkB, tstep]
    · rcases hin : innerLoop e hasW g s with ⟨res, s2, t⟩
      have hnd : LockEv.disp ∉ t := by
        have hh := inner_no_disp e hasW g s
        rw [hin] at hh
        exact hh
      have hok : ∀ u : TSt, dispOkB u t = true := fun u => dispOkB_of_not_mem t u hnd
      cases res with
      | fuelOut =>
        simp [invoke_async_request, hro, hin, dispOkB, dispOkB_append, hok]
      | retErofs =>
        simp [invoke_async_request, hro, hin, dispOkB, dispOkB_append, hok, tstep]
      | retRemote r =>
        simp [invoke_async_request, hro, hin, dispOkB, dispOkB_append, hok, tstep]
      | toDispatch =>
        have hfold := inner_dispatch_fold e hasW hSup g s ⟨1, false⟩ (by decide)
          (by rw [hin])
        rw [hin] at hfold
        obtain ⟨hfd, hfo⟩ := hfold
        by_cases hlr : e.localR s2.lc < 0
        · simp [invoke_async_request, hro, hin, hlr, dispOkB, dispOkB_append, hok,
            tstep, hfd, hfo]
        · by_cases hw : e.waitR s2.wt = -erestart
          · rcases hrec : invoke_async_request e hasW ro ps sa n g
                {s2 with lc := s2.lc + 1, wt := s2.wt + 1} with ⟨res2, t2⟩
            have hih := ih g {s2 with lc := s2.lc + 1, wt := s2.wt + 1}
            rw [hrec] at hih
            simp [invoke_async_request, hro, hin, hlr, hw, hrec, dispOkB,
              dispOkB_append, hok, tstep, hfd, hfo, hih]
          · simp [invoke_async_request, hro, hin, hlr, hw, dispOkB, dispOkB_append,
              hok, tstep, hfd, hfo]

/-- Concrete watcher oracle: supported and owning throughout. -/
def cWEnvOwn : WEnv :=
  ⟨fun _ => true, fun _ => true, fun _ => 0, fun _ => 0, fun _ => 0, fun _ => 0⟩

/-- C1 witness: the guard-audit theorem applied at a concrete run that
reaches the local dispatch. -/
theorem c1_dispatch_witness :
    dispOkB ⟨0, false⟩
      (invoke_async_request cWEnvOwn true false true false 1 1 ⟨0, 0, 0, 0, 0, 0⟩).2 = true :=
  c1_dispatch_under_guard cWEnvOwn true false true false (fun _ => rfl) 1 1 ⟨0, 0, 0, 0, 0, 0⟩

/-- Characterization of the inner loop's forwards: a remote answer that
is returned is neither Timeout nor Restart and is the last forward of
the trace, every earlier forward having been a Timeout or Restart that
looped; when the loop does not return a remote answer, every forward of
its trace was a Timeout or Restart. -/
theorem inner_fwd (e : WEnv) (hasW : Bool) : ∀ (g : Nat) (s : WSt),
    (∀ r, (innerLoop e hasW g s).1 = .retRemote r →
      (r ≠ -etimedout ∧ r ≠ -erestart) ∧
      ∃ pre, fwdVals (innerLoop e hasW g s).2.2 = pre ++ [r] ∧
        ∀ x ∈ pre, x = -etimedout ∨ x = -erestart) ∧
    ((∀ r, (innerLoop e hasW g s).1 ≠ .retRemote r) →
      ∀ x ∈ fwdVals (innerLoop e hasW g s).2.2, x = -etimedout ∨ x = -erestart) := by
  intro g
  induction g with
  | zero =>
    intro s
    constructor
    · intro r hres
      simp [innerLoop] at hres
    · intro _ x hx
      simp [innerLoop, fwdVals] at hx
  | succ n ih =>
    intro s
    by_cases hb : e.supported s.sup
    · rcases hp : prepare_image_update e hasW {s with sup := s.sup + 1} with ⟨r0, s2, t2⟩
      have hf2 : fwdVals t2 = [] := by
        have hh := prepare_no_fwd e hasW {s with sup := s.sup + 1}
        rw [hp] at hh
        exact hh
      by_cases hr : r0 < 0
      · constructor
        · intro r hres
          simp [innerLoop, hb, hp, hr] at hres
        · intro _ x hx
          simp [innerLoop, hb, hp, hr, fwdVals, hf2] at hx
      · by_cases ho : e.owner s2.ow
        · constructor
          · intro r hres
            simp [innerLoop, hb, hp, hr, ho] at hres
          · intro _ x hx
            simp [innerLoop, hb, hp, hr, ho, fwdVals, fwdVals_append, hf2] at hx
        · by_cases hrr : e.remoteR s2.rm ≠ -etimedout ∧ e.remoteR s2.rm ≠ -erestart
          · constructor
            · intro r hres
              have hreq : e.remoteR s2.rm = r := by
                simp [innerLoop, hb, hp, hr, ho, hrr] at hres
                exact hres
              subst hreq
              refine ⟨hrr, [], ?_, by simp⟩
              simp [innerLoop, hb, hp, hr, ho, hrr, fwdVals, fwdVals_append, hf2]
            · intro hne
              exfalso
              exact hne (e.remoteR s2.rm) (by simp [innerLoop, hb, hp, hr, ho, hrr])
          · rcases hin : innerLoop e hasW n {s2 with ow := s2.ow + 1, rm := s2.rm + 1}
              with ⟨res5, s5, t5⟩
            have hih := ih {s2 with ow := s2.ow + 1, rm := s2.rm + 1}
            rw [hin] at hih
            obtain ⟨ih1, ih2⟩ := hih
            have hrr2 : e.remoteR s2.rm = -etimedout ∨ e.remoteR s2.rm = -erestart := by
              rcases eq_or_ne (e.remoteR s2.rm) (-etimedout) with h | h
              · exact Or.inl h
              · right
                by_contra h2
                exact hrr ⟨h, h2⟩
            have hres_eq : (innerLoop e hasW (n + 1) s).1 = res5 := by
              simp [innerLoop, hb, hp, hr, ho, hrr, hin]
            have hval : fwdVals (innerLoop e hasW (n + 1) s).2.2 =
                e.remoteR s2.rm :: fwdVals t5 := by
              simp [innerLoop, hb, hp, hr, ho, hrr, hin, fwdVals, fwdVals_append, hf2]
            constructor
            · intro r hres
              have hres5 : res5 = .retRemote r := by
                rw [hres_eq] at hres
                exact hres
              obtain ⟨hne, pre, hpre, hmem⟩ := ih1 r hres5
              refine ⟨hne, e.remoteR s2.rm :: pre, ?_, ?_⟩
              · rw [hval, hpre]
                simp
              · intro x hx
                rcases List.mem_cons.mp hx with h | h
                · rw [h]
                  exact hrr2
                · exact hmem x h
            · intro hne x hx
              rw [hval] at hx
              rcases List.mem_cons.mp hx with h | h
              · rw [h]
                exact hrr2
              · refine ih2 ?_ x h
                intro r hr5
                exact hne r (by rw [hres_eq]; exact hr5)
    · constructor
      · intro r hres
        simp [innerLoop, hb] at hres
      · intro _ x hx
        simp [innerLoop, hb, fwdVals] at hx

/-- C2: for every coordinated request, a Timeout or Restart answer of
the remote forward makes the coordinator loop and retry, so the remote
answer it does return is neither (and every earlier forward of the run
answered Timeout or Restart); and a Restart outcome of the awaited local
handler restarts the whole sequence, so the awaited outcome the
coordinator returns is never Restart — Restart and Timeout retry
signals never escape as reportable errors. -/
theorem c2_retry_semantics (e : WEnv) (hasW ro ps sa : Bool) :
    ∀ (f g : Nat) (s : WSt),
    (∀ r, (invoke_async_request e hasW ro ps sa f g s).1 = .fromRemote r →
      (r ≠ -etimedout ∧ r ≠ -erestart) ∧
      ∃ pre, fwdVals (invoke_async_request e hasW ro ps sa f g s).2 = pre ++ [r] ∧
        ∀ x ∈ pre, x = -etimedout ∨ x = -erestart) ∧
    (∀ w, (invoke_async_request e hasW ro ps sa f g s).1 = .fromWait w →
      w ≠ -erestart) := by
  intro f
  induction f with
  | zero =>
    intro g s
    constructor
    · intro r hres
      simp [invoke_async_request] at hres
    · intro w hres
      simp [invoke_async_request] at hres
  | succ n ih =>
    intro g s
    by_cases hro : (ro || (!ps && sa)) = true
    · constructor
      · intro r hres
        simp [invoke_async_request, hro] at hres
      · intro w hres
        simp [invoke_async_request, hro] at hres
    · rcases hin : innerLoop e hasW g s with ⟨res, s2, t⟩
      obtain ⟨in1, in2⟩ := inner_fwd e hasW g s
      rw [hin] at in1 in2
      cases res with
      | fuelOut =>
        constructor
        · intro r hres
          simp [invoke_async_request, hro, hin] at hres
        · intro w hres
          simp [invoke_async_request, hro, hin] at hres
      | retErofs =>
        constructor
        · intro r hres
          simp [invoke_async_request, hro, hin] at hres
        · intro w hres
          simp [invoke_async_request, hro, hin] at hres
      | retRemote r0 =>
        obtain ⟨hne0, pre, hpre, hmem⟩ := in1 r0 rfl
        constructor
        · intro r hres
          have hr0 : r0 = r := by
            simp [invoke_async_request, hro, hin] at hres
            exact hres
          subst hr0
          refine ⟨hne0, pre, ?_, hmem⟩
          simp [invoke_async_request, hro, hin, fwdVals, fwdVals_append, hpre]
        · intro w hres
          simp [invoke_async_request, hro, hin] at hres
      | toDispatch =>
        have hallt : ∀ x ∈ fwdVals t, x = -etimedout ∨ x = -erestart :=
          in2 (fun r hr => by simp at hr)
        by_cases hlr : e.localR s2.lc < 0
        · constructor
          · intro r hres
            simp [invoke_async_request, hro, hin, hlr] at hres
          · intro w hres
            simp [invoke_async_request, hro, hin, hlr] at hres
        · by_cases hw : e.waitR s2.wt = -erestart
          · rcases hrec : invoke_async_request e hasW ro ps sa n g
                {s2 with lc := s2.lc + 1, wt := s2.wt + 1} with ⟨res2, t2⟩
            have hih := ih g {s2 with lc := s2.lc + 1, wt := s2.wt + 1}
            rw [hrec] at hih
            obtain ⟨ih1, ih2⟩ := hih
            have hres_eq : (invoke_async_request e hasW ro ps sa (n + 1) g s).1 = res2 := by
              simp [invoke_async_request, hro, hin, hlr, hw, hrec]
            have hval : fwdVals (invoke_async_request e hasW ro ps sa (n + 1) g s).2 =
                fwdVals t ++ fwdVals t2 := by
              simp [invoke_async_request, hro, hin, hlr, hw, hrec, fwdVals, fwdVals_append]
            constructor
            · intro r hres
              rw [hres_eq] at hres
              obtain ⟨hne2, pre2, hpre2, hmem2⟩ := ih1 r hres
              refine ⟨hne2, fwdVals t ++ pre2, ?_, ?_⟩
              · rw [hval, hpre2]
                simp
              · intro x hx
                rcases List.mem_append.mp hx with h | h
                · exact hallt x h
                · exact hmem2 x h
            · intro w hres
              rw [hres_eq] at hres
              exact ih2 w hres
          · constructor
            · intro r hres
              simp [invoke_async_request, hro, hin, hlr, hw] at hres
            · intro w hres
              simp [invoke_async_request, hro, hin, hlr, hw] at hres
              omega

/-- Concrete watcher oracle: supported but never owner, try_lock not
granted, remote forward answering -5. -/
def cWEnvFwd : WEnv :=
  ⟨fun _ => true, fun _ => false, fun _ => 0, fun _ => -5, fun _ => 0, fun _ => 0⟩

/-- C2 witness: the retry-semantics theorem applied at a concrete run
whose forward answers a plain error, returned at once with no prior
forward having escaped. -/
theorem c2_retry_witness :
    ((-5 : Int) ≠ -etimedout ∧ (-5 : Int) ≠ -erestart) ∧
    ∃ pre,
      fwdVals (invoke_async_request cWEnvFwd true false true false 1 1
        ⟨0, 0, 0, 0, 0, 0⟩).2 = pre ++ [(-5 : Int)] ∧
      ∀ x ∈ pre, x = -etimedout ∨ x = -erestart :=
  (c2_retry_semantics cWEnvFwd true false true false 1 1 ⟨0, 0, 0, 0, 0, 0⟩).1
    (-5) (by decide)
